import Mathlib

/-!
# IrrIMGUI: the native OpenGL driver (`COpenGLIMGUIDriver.cpp`)

A shallow embedding of the driver that replays the draw lists of the GUI
library through fixed-function OpenGL calls and manages the GPU textures of
fonts and images.

* Every driver function is a transformer of a `World`: the OpenGL context, the
  GUI library's IO block and the trace of the calls issued so far.
* `unsigned int`, `GLuint` and conversions to `int` wrap modulo `2^32`
  (`toUInt32`, `toInt32`); `int` arithmetic (`Width * Height`,
  `X + Y * Width`, `FirstIndexElement += ElemCount`) is reduced into the 32-bit
  range the same way.
* The conversion of an image is fallible: an allocation of negative size or a
  store outside the buffer is a `Fault`.
* `float` is IEEE 754 binary32 (`CFloat`): a product or difference is the
  exact result rounded to the nearest value, ties to even, with overflow to
  infinity (`CFloat.round`). `(int)f` truncates toward zero into a 32-bit `int`
  (`floatToInt`).
* The OpenGL context, the GUI library and the image class of the host engine
  are external; their entry points are modelled next to the driver.
-/

namespace IrrIMGUI

/-! ## Machine numbers -/

/-- Value of a 32-bit two's complement `int` (`GLint`, `GLsizei`) that receives
the integer `z`: reduction modulo `2^32` into `[-2^31, 2^31)`. -/
def toInt32 (z : Int) : Int := (z + 2147483648) % 4294967296 - 2147483648

/-- Value of a 32-bit `unsigned int` (`GLuint`, `irr::u32`) that receives the
integer `z`: reduction modulo `2^32`. -/
def toUInt32 (z : Int) : Nat := (z % 4294967296).toNat

/-- Value of a signed integer of `bits` bits (`intptr_t`) that receives `z`. -/
def toIntPtr (bits : Nat) (z : Int) : Int :=
  (z + 2 ^ (bits - 1)) % 2 ^ bits - 2 ^ (bits - 1)

/-- Bit pattern, read as an address, of a signed integer of `bits` bits. -/
def toPointer (bits : Nat) (z : Int) : Nat := (z % 2 ^ bits).toNat

/-- A value of the C++ type `float` (IEEE 754 binary32): a finite number, given
by its rational value, an infinity, or a NaN. The sign of a zero is not
modelled. -/
inductive CFloat where
  | finite (value : ℚ)
  | infinity (negative : Bool)
  | nan
  deriving DecidableEq

/-- Round to the nearest integer, a tie to the even neighbour. -/
def roundHalfEven (m : ℚ) : Int :=
  let k := ⌊m⌋
  let r := m - k
  if r < 1 / 2 then k else if 1 / 2 < r then k + 1 else if k % 2 = 0 then k else k + 1

/-- The exponent `e` of the unit in the last place, `2 ^ e`, of the binary32
values around `q`: 24 significant bits, and -126 as the least exponent of a
normal number. -/
def CFloat.ulpExponent (q : ℚ) : Int := max (Int.log 2 |q|) (-126) - 23

/-- The binary32 value of an exact result `q`: the multiple of the unit in the
last place nearest to `q`, a tie to the even one; a magnitude that reaches
`2 ^ 128` after rounding is an infinity. -/
def CFloat.round (q : ℚ) : CFloat :=
  if q = 0 then .finite 0
  else
    let e := CFloat.ulpExponent q
    let n := roundHalfEven (|q| / 2 ^ e)
    if (2 : ℚ) ^ (128 : ℕ) ≤ n * 2 ^ e then .infinity (decide (q < 0))
    else .finite ((if q < 0 then -1 else 1) * (n * 2 ^ e))

/-- The product `a * b` of two `float`s. -/
def CFloat.mul : CFloat → CFloat → CFloat
  | .finite a, .finite b => CFloat.round (a * b)
  | .finite a, .infinity t => if a = 0 then .nan else .infinity (decide (a < 0) != t)
  | .infinity s, .finite b => if b = 0 then .nan else .infinity (s != decide (b < 0))
  | .infinity s, .infinity t => .infinity (s != t)
  | .nan, _ => .nan
  | _, .nan => .nan

/-- The difference `a - b` of two `float`s. -/
def CFloat.sub : CFloat → CFloat → CFloat
  | .finite a, .finite b => CFloat.round (a - b)
  | .finite _, .infinity t => .infinity (!t)
  | .infinity s, .finite _ => .infinity s
  | .infinity s, .infinity t => if s = t then .nan else .infinity s
  | .nan, _ => .nan
  | _, .nan => .nan

instance : Mul CFloat := ⟨CFloat.mul⟩

instance : Sub CFloat := ⟨CFloat.sub⟩

/-- The conversion `(int)f`: truncation toward zero. Where the truncated value
does not fit a 32-bit `int`, and for an infinity or a NaN, C++ leaves the
result undefined; the model takes the value the x86 conversion instruction
yields there, the least `int`. -/
def floatToInt (f : CFloat) : Int :=
  match f with
  | .finite q =>
    let z := if 0 ≤ q.num then q.num / (q.den : Int) else -((-q.num) / (q.den : Int))
    if -2147483648 ≤ z ∧ z ≤ 2147483647 then z else -2147483648
  | _ => -2147483648

/-- The type `GLdouble`, for the values the driver passes: those of `float`s,
which a `double` holds exactly. -/
abbrev GLdouble := CFloat

/-! ## Data of the GUI library read by the driver -/

/-- Two floats (`ImVec2`). -/
structure ImVec2 where
  x : CFloat
  y : CFloat

/-- Four floats (`ImVec4`); as a clip rectangle `x` is the left edge, `y` the
top, `z` the right and `w` the bottom. -/
structure ImVec4 where
  x : CFloat
  y : CFloat
  z : CFloat
  w : CFloat

/-- A user callback: the address of the function (`ImDrawCallback`). -/
abbrev ImDrawCallback := Nat

/-- A texture handle: a pointer-sized value (`ImTextureID`, `void *`). -/
abbrev ImTextureID := Nat

/-- One draw command (`ImDrawCmd`); `UserCallback = none` is the null pointer. -/
structure ImDrawCmd where
  ElemCount : Nat
  ClipRect : ImVec4
  TextureId : ImTextureID
  UserCallback : Option ImDrawCallback

/-- One vertex record (`ImDrawVert`). -/
structure ImDrawVert where
  pos : ImVec2
  uv : ImVec2
  col : Nat

/-- One command list (`ImDrawList`). -/
structure ImDrawList where
  CmdBuffer : List ImDrawCmd
  IdxBuffer : List Nat
  VtxBuffer : List ImDrawVert

/-- The draw data of one frame (`ImDrawData`); `CmdListsCount` is the length of
`CmdLists`. -/
structure ImDrawData where
  CmdLists : List ImDrawList

/-- The font atlas (`ImFontAtlas`): the recorded texture handle and the alpha
pixel data with its size. -/
structure ImFontAtlas where
  TexID : ImTextureID
  TexPixelsAlpha8 : List Nat
  TexWidth : Int
  TexHeight : Int

/-- The part of the IO block of the GUI library that the driver uses. -/
structure ImGuiIO where
  DisplaySize : ImVec2
  DisplayFramebufferScale : ImVec2
  Fonts : ImFontAtlas

/-! ## OpenGL enumerants (values of `GL/gl.h`) -/

/-- An OpenGL enumerant (`GLenum`). -/
abbrev GLenum := Nat

def GL_TRIANGLES : GLenum := 0x0004
def GL_SRC_ALPHA : GLenum := 0x0302
def GL_ONE_MINUS_SRC_ALPHA : GLenum := 0x0303
def GL_UNSIGNED_BYTE : GLenum := 0x1401
def GL_UNSIGNED_SHORT : GLenum := 0x1403
def GL_FLOAT : GLenum := 0x1406
def GL_ALPHA : GLenum := 0x1906
def GL_RGBA : GLenum := 0x1908
def GL_LINEAR : GLenum := 0x2601
def GL_TEXTURE_MAG_FILTER : GLenum := 0x2800
def GL_TEXTURE_MIN_FILTER : GLenum := 0x2801
def GL_TEXTURE_2D : GLenum := 0x0DE1
def GL_TEXTURE_BINDING_2D : GLenum := 0x8069
def GL_NO_ERROR : GLenum := 0
def GL_INVALID_VALUE : GLenum := 0x0501
def GL_STACK_OVERFLOW : GLenum := 0x0503
def GL_STACK_UNDERFLOW : GLenum := 0x0504
def GL_TRANSFORM_BIT : Nat := 0x00001000
def GL_ENABLE_BIT : Nat := 0x00002000
def GL_COLOR_BUFFER_BIT : Nat := 0x00004000

/-- The server capabilities the driver switches with `glEnable`/`glDisable`. -/
inductive Capability where
  | GL_BLEND
  | GL_CULL_FACE
  | GL_DEPTH_TEST
  | GL_SCISSOR_TEST
  | GL_TEXTURE_2D
  deriving DecidableEq, Repr

/-- The client arrays switched with `glEnableClientState`. -/
inductive ClientArray where
  | GL_VERTEX_ARRAY
  | GL_TEXTURE_COORD_ARRAY
  | GL_COLOR_ARRAY
  deriving DecidableEq, Repr

/-- The matrix stacks selected by `glMatrixMode`. -/
inductive MatrixMode where
  | GL_MODELVIEW
  | GL_PROJECTION
  | GL_TEXTURE
  deriving DecidableEq, Repr

/-- The field of the vertex record an array pointer is aimed at. -/
inductive VertexField where
  | pos
  | uv
  | col
  deriving DecidableEq, Repr

/-! ## The OpenGL context -/

/-- A 4x4 transformation matrix. -/
abbrev Mat4 := Matrix (Fin 4) (Fin 4) ℚ

/-- The matrix `glOrtho` multiplies the current matrix with. -/
def orthoMatrix (l r b t n f : ℚ) : Mat4 :=
  !![2 / (r - l), 0, 0, -((r + l) / (r - l));
     0, 2 / (t - b), 0, -((t + b) / (t - b));
     0, 0, -(2 / (f - n)), -((f + n) / (f - n));
     0, 0, 0, 1]

/-- A matrix stack: the current matrix, the matrices saved below it and the
depth the implementation allows. -/
structure MatrixStack where
  top : Mat4
  below : List Mat4
  maxDepth : Nat

/-- One entry of the attribute stack: the mask it was pushed with and the
values of the attribute groups. -/
structure SavedAttrib where
  mask : Nat
  blend : Bool
  cullFace : Bool
  depthTest : Bool
  scissorTest : Bool
  texture2D : Bool
  blendSrc : GLenum
  blendDst : GLenum
  matrixMode : MatrixMode

/-- Modelled from the spec: the OpenGL context is the external graphics API the
driver talks to; this is the part of its state named in the saved pipeline
state (enable bits, blend function, matrix mode, bound 2D texture, matrix
stacks, attribute stack), with the scissor box, the client array switches, the
texture names in use and the error flag. `genName` is the name the
implementation hands out at the next `glGenTextures`; `nonFiniteOrtho` is the
matrix the implementation is left with when `glOrtho` is given a plane that is
not a finite number. -/
structure GLState where
  blend : Bool
  cullFace : Bool
  depthTest : Bool
  scissorTest : Bool
  texture2D : Bool
  blendSrc : GLenum
  blendDst : GLenum
  matrixMode : MatrixMode
  boundTexture2D : Nat
  projection : MatrixStack
  modelview : MatrixStack
  texture : MatrixStack
  attribStack : List SavedAttrib
  maxAttribStackDepth : Nat
  scissorBox : Int × Int × Int × Int
  vertexArray : Bool
  texCoordArray : Bool
  colorArray : Bool
  textureNames : List Nat
  genName : List Nat → Nat
  nonFiniteOrtho : Mat4 → Mat4
  error : GLenum

/-- Record an error: the flag keeps the first error until it is read. -/
def GLState.setError (g : GLState) (e : GLenum) : GLState :=
  if g.error = GL_NO_ERROR then { g with error := e } else g

/-- The stack selected by the matrix mode. -/
def GLState.currentStack (g : GLState) : MatrixStack :=
  match g.matrixMode with
  | .GL_MODELVIEW => g.modelview
  | .GL_PROJECTION => g.projection
  | .GL_TEXTURE => g.texture

/-- Replace the stack selected by the matrix mode. -/
def GLState.setCurrentStack (g : GLState) (s : MatrixStack) : GLState :=
  match g.matrixMode with
  | .GL_MODELVIEW => { g with modelview := s }
  | .GL_PROJECTION => { g with projection := s }
  | .GL_TEXTURE => { g with texture := s }

/-- Effect of `glEnable(cap)` and `glDisable(cap)`. -/
def GLState.setCapability (g : GLState) (cap : Capability) (v : Bool) : GLState :=
  match cap with
  | .GL_BLEND => { g with blend := v }
  | .GL_CULL_FACE => { g with cullFace := v }
  | .GL_DEPTH_TEST => { g with depthTest := v }
  | .GL_SCISSOR_TEST => { g with scissorTest := v }
  | .GL_TEXTURE_2D => { g with texture2D := v }

/-- Effect of `glEnableClientState(a)` and `glDisableClientState(a)`. -/
def GLState.setClientArray (g : GLState) (a : ClientArray) (v : Bool) : GLState :=
  match a with
  | .GL_VERTEX_ARRAY => { g with vertexArray := v }
  | .GL_TEXTURE_COORD_ARRAY => { g with texCoordArray := v }
  | .GL_COLOR_ARRAY => { g with colorArray := v }

/-- Effect of `glPushMatrix()`: duplicate the current matrix, or
`GL_STACK_OVERFLOW` and no change when the stack is full. -/
def GLState.pushMatrix (g : GLState) : GLState :=
  let s := g.currentStack
  if s.below.length + 1 < s.maxDepth then
    g.setCurrentStack { s with below := s.top :: s.below }
  else g.setError GL_STACK_OVERFLOW

/-- Effect of `glPopMatrix()`: the matrix below becomes current, or
`GL_STACK_UNDERFLOW` and no change when the stack holds one matrix. -/
def GLState.popMatrix (g : GLState) : GLState :=
  let s := g.currentStack
  match s.below with
  | [] => g.setError GL_STACK_UNDERFLOW
  | m :: rest => g.setCurrentStack { s with top := m, below := rest }

/-- Effect of `glLoadIdentity()`. -/
def GLState.loadIdentity (g : GLState) : GLState :=
  g.setCurrentStack { g.currentStack with top := 1 }

/-- Effect of `glOrtho(l, r, b, t, n, f)`: multiply the current matrix, or
`GL_INVALID_VALUE` and no change when two opposite planes coincide; with a
plane that is not a finite number the current matrix becomes the one the
implementation is left with. -/
def GLState.ortho (g : GLState) (l r b t n f : GLdouble) : GLState :=
  match l, r, b, t, n, f with
  | .finite l, .finite r, .finite b, .finite t, .finite n, .finite f =>
    if l = r ∨ b = t ∨ n = f then g.setError GL_INVALID_VALUE
    else
      g.setCurrentStack
        { g.currentStack with top := g.currentStack.top * orthoMatrix l r b t n f }
  | _, _, _, _, _, _ =>
    g.setCurrentStack { g.currentStack with top := g.nonFiniteOrtho g.currentStack.top }

/-- Effect of `glPushAttrib(mask)`: save the attribute groups, or
`GL_STACK_OVERFLOW` and no change when the stack is full. -/
def GLState.pushAttrib (g : GLState) (mask : Nat) : GLState :=
  if g.attribStack.length < g.maxAttribStackDepth then
    { g with attribStack :=
        { mask := mask, blend := g.blend, cullFace := g.cullFace, depthTest := g.depthTest,
          scissorTest := g.scissorTest, texture2D := g.texture2D, blendSrc := g.blendSrc,
          blendDst := g.blendDst, matrixMode := g.matrixMode } :: g.attribStack }
  else g.setError GL_STACK_OVERFLOW

/-- Effect of `glPopAttrib()`: restore the groups named by the mask of the top
entry (the enable group holds the enable bits, the colour buffer group the
blend switch and blend function, the transform group the matrix mode), or
`GL_STACK_UNDERFLOW` and no change when the stack is empty. -/
def GLState.popAttrib (g : GLState) : GLState :=
  match g.attribStack with
  | [] => g.setError GL_STACK_UNDERFLOW
  | a :: rest =>
    let en := decide (a.mask &&& GL_ENABLE_BIT ≠ 0)
    let cb := decide (a.mask &&& GL_COLOR_BUFFER_BIT ≠ 0)
    let tr := decide (a.mask &&& GL_TRANSFORM_BIT ≠ 0)
    { g with
      attribStack := rest
      blend := if en || cb then a.blend else g.blend
      cullFace := if en then a.cullFace else g.cullFace
      depthTest := if en then a.depthTest else g.depthTest
      scissorTest := if en then a.scissorTest else g.scissorTest
      texture2D := if en then a.texture2D else g.texture2D
      blendSrc := if cb then a.blendSrc else g.blendSrc
      blendDst := if cb then a.blendDst else g.blendDst
      matrixMode := if tr then a.matrixMode else g.matrixMode }

/-- Effect of `glBindTexture(GL_TEXTURE_2D, name)`: the name becomes the bound
2D texture and, unless it is 0, a name in use. -/
def GLState.bindTexture2D (g : GLState) (name : Nat) : GLState :=
  { g with
    boundTexture2D := name
    textureNames := if name = 0 ∨ name ∈ g.textureNames then g.textureNames
                    else name :: g.textureNames }

/-- Effect of `glScissor(x, y, w, h)`: set the box, or `GL_INVALID_VALUE` and no
change when a size is negative. -/
def GLState.scissor (g : GLState) (x y w h : Int) : GLState :=
  if w < 0 ∨ h < 0 then g.setError GL_INVALID_VALUE
  else { g with scissorBox := (x, y, w, h) }

/-- Effect of `glDeleteTextures(1, &name)`: the name is free again and, when it
was bound, the binding reverts to 0. -/
def GLState.deleteTexture (g : GLState) (name : Nat) : GLState :=
  { g with
    textureNames := g.textureNames.filter (fun n => n ≠ name)
    boundTexture2D := if g.boundTexture2D = name then 0 else g.boundTexture2D }

/-- Effect of `glGenTextures(1, &name)`: the implementation picks a name (a
`GLuint`), which is in use from then on. -/
def GLState.genTexture (g : GLState) : Nat × GLState :=
  let name := g.genName g.textureNames % 4294967296
  (name, { g with textureNames := name :: g.textureNames })

/-! ## Pixel data -/

/-- One cell of an RGBA buffer: the four bytes in the order red, green, blue,
alpha. -/
structure RGBA where
  r : Nat
  g : Nat
  b : Nat
  a : Nat
  deriving DecidableEq, Repr

/-- The pixel buffer handed to `glTexImage2D`: the bytes of an alpha image, or
the cells of an RGBA image (`none` for a cell never written). -/
inductive PixelData where
  | alpha8 (bytes : List Nat)
  | rgba (cells : List (Option RGBA))

/-! ## Calls issued by the driver -/

/-- One call the driver issues: an OpenGL entry point with its arguments (for
`glGetIntegerv` and `glGenTextures` with the value written back; for the array
pointers the vertex field the pointer is aimed at; for `glDrawElements` the
position in the index buffer the pointer is aimed at), or the invocation of a
user callback. -/
inductive GLCall where
  | glGetIntegerv (pname : GLenum) (value : Int)
  | glPushAttrib (mask : Nat)
  | glPopAttrib
  | glMatrixMode (mode : MatrixMode)
  | glPushMatrix
  | glPopMatrix
  | glLoadIdentity
  | glOrtho (left right bottom top zNear zFar : GLdouble)
  | glEnable (cap : Capability)
  | glDisable (cap : Capability)
  | glBlendFunc (sfactor dfactor : GLenum)
  | glEnableClientState (array : ClientArray)
  | glDisableClientState (array : ClientArray)
  | glVertexPointer (size : Int) (type : GLenum) (field : VertexField)
  | glTexCoordPointer (size : Int) (type : GLenum) (field : VertexField)
  | glColorPointer (size : Int) (type : GLenum) (field : VertexField)
  | glBindTexture (target : GLenum) (texture : Nat)
  | glScissor (x y width height : Int)
  | glDrawElements (mode : GLenum) (count : Int) (type : GLenum) (first : Int)
  | glGenTextures (n : Int) (name : Nat)
  | glDeleteTextures (n : Int) (name : Nat)
  | glTexParameteri (target pname : GLenum) (param : Int)
  | glTexImage2D (target : GLenum) (level internalformat width height border : Int)
      (format type : GLenum) (pixels : PixelData)
  | UserCallback (cb : ImDrawCallback) (list : ImDrawList) (cmd : ImDrawCmd)

/-- What the host platform fixes: the width of a pointer in bits and what each
user callback does to the OpenGL context. -/
structure Host where
  ptrBits : Nat
  runCallback : ImDrawCallback → ImDrawList → ImDrawCmd → GLState → GLState

/-- Effect of one call on the OpenGL context. Array pointers, texture
parameters, texture images and the pixels drawn are outside the modelled
state. -/
def GLCall.exec (h : Host) (c : GLCall) (g : GLState) : GLState :=
  match c with
  | .glGetIntegerv _ _ => g
  | .glPushAttrib mask => g.pushAttrib mask
  | .glPopAttrib => g.popAttrib
  | .glMatrixMode mode => { g with matrixMode := mode }
  | .glPushMatrix => g.pushMatrix
  | .glPopMatrix => g.popMatrix
  | .glLoadIdentity => g.loadIdentity
  | .glOrtho l r b t n f => g.ortho l r b t n f
  | .glEnable cap => g.setCapability cap true
  | .glDisable cap => g.setCapability cap false
  | .glBlendFunc s d => { g with blendSrc := s, blendDst := d }
  | .glEnableClientState a => g.setClientArray a true
  | .glDisableClientState a => g.setClientArray a false
  | .glVertexPointer _ _ _ => g
  | .glTexCoordPointer _ _ _ => g
  | .glColorPointer _ _ _ => g
  | .glBindTexture target name => if target = GL_TEXTURE_2D then g.bindTexture2D name else g
  | .glScissor x y w h => g.scissor x y w h
  | .glDrawElements _ _ _ _ => g
  | .glGenTextures _ name => { g with textureNames := name :: g.textureNames }
  | .glDeleteTextures _ name => g.deleteTexture name
  | .glTexParameteri _ _ _ => g
  | .glTexImage2D _ _ _ _ _ _ _ _ _ => g
  | .UserCallback cb list cmd => h.runCallback cb list cmd g

/-- Everything a driver function can read or change: the OpenGL context, the IO
block of the GUI library (`ImGui::GetIO()`) and the trace of the calls issued
so far, oldest first. -/
structure World where
  gl : GLState
  gui : ImGuiIO
  log : List GLCall

/-- Issue one call: run it on the context and append it to the trace. -/
def World.issue (h : Host) (w : World) (c : GLCall) : World :=
  { w with gl := c.exec h w.gl, log := w.log ++ [c] }

/-- The call `glGetIntegerv(GL_TEXTURE_BINDING_2D, &v)`: the value read into the
`GLint` and the world after the call. -/
def World.getTextureBinding2D (h : Host) (w : World) : Int × World :=
  let v := toInt32 w.gl.boundTexture2D
  (v, w.issue h (.glGetIntegerv GL_TEXTURE_BINDING_2D v))

/-- The call `glGenTextures(1, &name)`: the name written back and the world
after the call. -/
def World.genTexture (h : Host) (w : World) : Nat × World :=
  let name := w.gl.genTexture.1
  (name, w.issue h (.glGenTextures 1 name))

/-! ## Texture handles -/

/-- The cast `reinterpret_cast<void *>(static_cast<intptr_t>(name))` of a
`GLuint`. -/
def nameToHandle (ptrBits : Nat) (name : Nat) : ImTextureID :=
  toPointer ptrBits (toIntPtr ptrBits name)

/-- The cast `static_cast<GLuint>(reinterpret_cast<intptr_t>(handle))`, also
written `(GLuint)(intptr_t)handle`. -/
def handleToName (ptrBits : Nat) (handle : ImTextureID) : Nat :=
  toUInt32 (toIntPtr ptrBits handle)

/-! ## The draw list replayer -/

/-- The loop of `drawCommandList` over the commands still to process, with the
running `FirstIndexElement`. -/
def drawCommandList.loop (h : Host) (pCommandList : ImDrawList) (FrameBufferHeight : CFloat) :
    List ImDrawCmd → Int → World → World
  | [], _, w => w
  | pCommand :: rest, FirstIndexElement, w =>
    let w :=
      match pCommand.UserCallback with
      | some cb => w.issue h (.UserCallback cb pCommandList pCommand)
      | none =>
        let w := w.issue h (.glBindTexture GL_TEXTURE_2D (handleToName h.ptrBits pCommand.TextureId))
        let w := w.issue h (.glScissor
          (floatToInt pCommand.ClipRect.x)
          (floatToInt (FrameBufferHeight - pCommand.ClipRect.w))
          (floatToInt (pCommand.ClipRect.z - pCommand.ClipRect.x))
          (floatToInt (pCommand.ClipRect.w - pCommand.ClipRect.y)))
        w.issue h (.glDrawElements GL_TRIANGLES (toInt32 pCommand.ElemCount) GL_UNSIGNED_SHORT
          FirstIndexElement)
    drawCommandList.loop h pCommandList FrameBufferHeight rest
      (toInt32 (FirstIndexElement + pCommand.ElemCount)) w

/-- `COpenGLIMGUIDriver::drawCommandList`. -/
def drawCommandList (h : Host) (pCommandList : ImDrawList) (w : World) : World :=
  let FrameBufferHeight := w.gui.DisplaySize.y * w.gui.DisplayFramebufferScale.y
  let w := w.issue h (.glVertexPointer 2 GL_FLOAT .pos)
  let w := w.issue h (.glTexCoordPointer 2 GL_FLOAT .uv)
  let w := w.issue h (.glColorPointer 4 GL_UNSIGNED_BYTE .col)
  drawCommandList.loop h pCommandList FrameBufferHeight pCommandList.CmdBuffer 0 w

/-- `OpenGLHelper::COpenGLState::COpenGLState`: the saved `mOldTexture` and the
world after the constructor. -/
def COpenGLState.ctor (h : Host) (w : World) : Int × World :=
  let (mOldTexture, w) := w.getTextureBinding2D h
  let w := w.issue h (.glPushAttrib (GL_ENABLE_BIT ||| GL_COLOR_BUFFER_BIT ||| GL_TRANSFORM_BIT))
  let w := w.issue h (.glMatrixMode .GL_PROJECTION)
  let w := w.issue h .glPushMatrix
  let w := w.issue h (.glMatrixMode .GL_MODELVIEW)
  let w := w.issue h .glPushMatrix
  (mOldTexture, w)

/-- `OpenGLHelper::COpenGLState::~COpenGLState`. -/
def COpenGLState.dtor (h : Host) (mOldTexture : Int) (w : World) : World :=
  let w := w.issue h (.glMatrixMode .GL_MODELVIEW)
  let w := w.issue h .glPopMatrix
  let w := w.issue h (.glMatrixMode .GL_PROJECTION)
  let w := w.issue h .glPopMatrix
  let w := w.issue h .glPopAttrib
  w.issue h (.glBindTexture GL_TEXTURE_2D (toUInt32 mOldTexture))

/-- Modelled from the spec: `ImDrawData::ScaleClipRects` belongs to the GUI
library; it scales the clip rectangle of every command of every command list,
the horizontal edges by `scale.x` and the vertical edges by `scale.y`. -/
def ImDrawData.ScaleClipRects (d : ImDrawData) (scale : ImVec2) : ImDrawData :=
  { CmdLists := d.CmdLists.map fun l =>
      { l with CmdBuffer := l.CmdBuffer.map fun c =>
          { c with ClipRect :=
              { x := c.ClipRect.x * scale.x, y := c.ClipRect.y * scale.y,
                z := c.ClipRect.z * scale.x, w := c.ClipRect.w * scale.y } } } }

/-- The part of `drawGUIList` between the construction of the state guard and
the loop over the command lists: pipeline switches, projection, model view. -/
def drawGUIList.setup (h : Host) (w : World) : World :=
  let rGUIIO := w.gui
  let w := w.issue h (.glEnable .GL_BLEND)
  let w := w.issue h (.glBlendFunc GL_SRC_ALPHA GL_ONE_MINUS_SRC_ALPHA)
  let w := w.issue h (.glDisable .GL_CULL_FACE)
  let w := w.issue h (.glDisable .GL_DEPTH_TEST)
  let w := w.issue h (.glEnable .GL_SCISSOR_TEST)
  let w := w.issue h (.glEnableClientState .GL_VERTEX_ARRAY)
  let w := w.issue h (.glEnableClientState .GL_TEXTURE_COORD_ARRAY)
  let w := w.issue h (.glEnableClientState .GL_COLOR_ARRAY)
  let w := w.issue h (.glEnable .GL_TEXTURE_2D)
  let w := w.issue h (.glMatrixMode .GL_PROJECTION)
  let w := w.issue h .glLoadIdentity
  let w := w.issue h (.glOrtho (.finite 0) rGUIIO.DisplaySize.x rGUIIO.DisplaySize.y (.finite 0)
    (.finite (-1)) (.finite 1))
  let w := w.issue h (.glMatrixMode .GL_MODELVIEW)
  w.issue h .glLoadIdentity

/-- The loop of `drawGUIList` over the command lists. -/
def drawGUIList.loop (h : Host) : List ImDrawList → World → World
  | [], w => w
  | l :: rest, w => drawGUIList.loop h rest (drawCommandList h l w)

/-- `COpenGLIMGUIDriver::drawGUIList`: the draw data with its clip rectangles
scaled in place, and the world after the state guard has been destroyed. -/
def drawGUIList (h : Host) (pDrawData : ImDrawData) (w : World) : ImDrawData × World :=
  let (mOldTexture, w) := COpenGLState.ctor h w
  let rGUIIO := w.gui
  let pDrawData := pDrawData.ScaleClipRects rGUIIO.DisplayFramebufferScale
  let w := drawGUIList.setup h w
  let w := drawGUIList.loop h pDrawData.CmdLists w
  let w := w.issue h (.glDisableClientState .GL_COLOR_ARRAY)
  let w := w.issue h (.glDisableClientState .GL_TEXTURE_COORD_ARRAY)
  let w := w.issue h (.glDisableClientState .GL_VERTEX_ARRAY)
  (pDrawData, COpenGLState.dtor h mOldTexture w)

/-! ## The texture lifecycle manager -/

/-- `COpenGLIMGUIDriver::deleteFontTexture`. -/
def deleteFontTexture (h : Host) (pTextureID : ImTextureID) (w : World) : World :=
  let Texture := handleToName h.ptrBits pTextureID
  w.issue h (.glDeleteTextures 1 Texture)

/-- `COpenGLIMGUIDriver::deleteTextureInternal`. -/
def deleteTextureInternal (h : Host) (Texture : ImTextureID) (w : World) : World :=
  let TextureID := handleToName h.ptrBits Texture
  w.issue h (.glDeleteTextures 1 TextureID)

/-- Modelled from the spec: `ImFontAtlas::GetTexDataAsAlpha8` belongs to the GUI
library; it yields the single-channel (alpha) pixel buffer of the font atlas
with its width and height. -/
def ImFontAtlas.GetTexDataAsAlpha8 (a : ImFontAtlas) : List Nat × Int × Int :=
  (a.TexPixelsAlpha8, a.TexWidth, a.TexHeight)

/-- Modelled from the spec: `ImFontAtlas::ClearTexData` belongs to the GUI
library; it releases the pixel buffer of the atlas and leaves the recorded
handle alone. -/
def ImFontAtlas.ClearTexData (a : ImFontAtlas) : ImFontAtlas :=
  { a with TexPixelsAlpha8 := [] }

/-- `COpenGLIMGUIDriver::createFontTextureWithHandle`: the returned handle and
the world after the call. -/
def createFontTextureWithHandle (h : Host) (w : World) : ImTextureID × World :=
  let (PixelData, Width, Height) := w.gui.Fonts.GetTexDataAsAlpha8
  let (OldTextureID, w) := w.getTextureBinding2D h
  let (NewTextureID, w) := w.genTexture h
  let w := w.issue h (.glBindTexture GL_TEXTURE_2D NewTextureID)
  let w := w.issue h (.glTexParameteri GL_TEXTURE_2D GL_TEXTURE_MIN_FILTER GL_LINEAR)
  let w := w.issue h (.glTexParameteri GL_TEXTURE_2D GL_TEXTURE_MAG_FILTER GL_LINEAR)
  let w := w.issue h (.glTexImage2D GL_TEXTURE_2D 0 GL_ALPHA Width Height 0 GL_ALPHA
    GL_UNSIGNED_BYTE (.alpha8 PixelData))
  let pFontTexture := nameToHandle h.ptrBits NewTextureID
  let w := { w with gui := { w.gui with Fonts := { w.gui.Fonts with TexID := pFontTexture } } }
  let w := { w with gui := { w.gui with Fonts := w.gui.Fonts.ClearTexData } }
  let w := w.issue h (.glBindTexture GL_TEXTURE_2D (toUInt32 OldTextureID))
  (pFontTexture, w)

/-- An image of the host engine (`irr::video::IImage`): its dimension
(`irr::u32` values) and its pixel query, which yields a 32-bit A8R8G8B8
colour. -/
structure IImage where
  Width : Nat
  Height : Nat
  getPixel : Nat → Nat → Nat

/-- Modelled from the spec: `irr::video::SColor::toOpenGLColor` belongs to the
host engine; it converts an A8R8G8B8 colour into the four bytes red, green,
blue, alpha of an RGBA cell. -/
def toOpenGLColor (color : Nat) : RGBA :=
  { r := (color >>> 16) &&& 0xFF, g := (color >>> 8) &&& 0xFF, b := color &&& 0xFF,
    a := (color >>> 24) &&& 0xFF }

/-- Why the conversion of an image does not complete. -/
inductive Fault where
  | badAlloc
  | outOfBounds
  | outOfFuel
  deriving DecidableEq, Repr

/-- The buffer `pImageData` during the conversion: its cells, and the indices
written so far, oldest first. -/
structure ImageBuffer where
  cells : List (Option RGBA)
  writes : List Nat

/-- The inner loop `for (int Y = 0; Y < Height; Y++)` of the conversion, from
`Y` on: every pass stores the colour of pixel `(X, Y)` in cell
`X + Y * Width`, computed in `int`; a store outside the buffer is a fault. -/
def convertImage.loopY (pImage : IImage) (Width Height X : Int) :
    Nat → Int → ImageBuffer → Except Fault ImageBuffer
  | 0, _, _ => .error .outOfFuel
  | fuel + 1, Y, buf =>
    if Y < Height then
      let PixelColor := pImage.getPixel (toUInt32 X) (toUInt32 Y)
      let index := toInt32 (X + toInt32 (Y * Width))
      if 0 ≤ index ∧ index < buf.cells.length then
        convertImage.loopY pImage Width Height X fuel (toInt32 (Y + 1))
          { cells := buf.cells.set index.toNat (some (toOpenGLColor PixelColor)),
            writes := buf.writes ++ [index.toNat] }
      else .error .outOfBounds
    else .ok buf

/-- The outer loop `for (int X = 0; X < Width; X++)` of the conversion, from
`X` on. -/
def convertImage.loopX (pImage : IImage) (Width Height : Int) :
    Nat → Int → ImageBuffer → Except Fault ImageBuffer
  | 0, _, _ => .error .outOfFuel
  | fuel + 1, X, buf =>
    if X < Width then
      match convertImage.loopY pImage Width Height X (Height.toNat + 1) 0 buf with
      | .error e => .error e
      | .ok buf => convertImage.loopX pImage Width Height fuel (toInt32 (X + 1)) buf
    else .ok buf

/-- The first part of `createTextureFromImageInternal`: read the dimension into
`int`s, allocate `Width * Height` cells (`new irr::u32[Width * Height]`, the
product taken in `int`) and convert every pixel. -/
def convertImage (pImage : IImage) : Except Fault ImageBuffer :=
  let Width := toInt32 pImage.Width
  let Height := toInt32 pImage.Height
  let size := toInt32 (Width * Height)
  if size < 0 then .error .badAlloc
  else
    convertImage.loopX pImage Width Height (Width.toNat + 1) 0
      { cells := List.replicate size.toNat none, writes := [] }

/-- The second part of `createTextureFromImageInternal`, after the conversion:
upload the buffer as a new texture between saving and restoring the bound
texture; the returned handle and the world after the call. -/
def createTextureFromImageInternal.upload (h : Host) (Width Height : Int)
    (pImageData : ImageBuffer) (w : World) : ImTextureID × World :=
  let (OldTextureID, w) := w.getTextureBinding2D h
  let (NewTextureID, w) := w.genTexture h
  let w := w.issue h (.glBindTexture GL_TEXTURE_2D NewTextureID)
  let w := w.issue h (.glTexParameteri GL_TEXTURE_2D GL_TEXTURE_MIN_FILTER GL_LINEAR)
  let w := w.issue h (.glTexParameteri GL_TEXTURE_2D GL_TEXTURE_MAG_FILTER GL_LINEAR)
  let w := w.issue h (.glTexImage2D GL_TEXTURE_2D 0 GL_RGBA Width Height 0 GL_RGBA
    GL_UNSIGNED_BYTE (.rgba pImageData.cells))
  let pTexture := nameToHandle h.ptrBits NewTextureID
  let w := w.issue h (.glBindTexture GL_TEXTURE_2D (toUInt32 OldTextureID))
  (pTexture, w)

/-- `COpenGLIMGUIDriver::createTextureFromImageInternal`: the returned handle
and the world after the call, or the fault of the conversion. -/
def createTextureFromImageInternal (h : Host) (pImage : IImage) (w : World) :
    Except Fault (ImTextureID × World) :=
  (convertImage pImage).map fun pImageData =>
    createTextureFromImageInternal.upload h (toInt32 pImage.Width) (toInt32 pImage.Height)
      pImageData w

/-! ## Reading a trace -/

/-- Sum of the `ElemCount` values of a sequence of commands. -/
def elemCountSum (cmds : List ImDrawCmd) : Nat := (cmds.map fun c => c.ElemCount).sum

/-- The running offset in front of every command of `cmds` when the commands
processed before them have advanced it to the `int` value of `f`: the 32-bit
`int` value of `f` plus the `ElemCount` of all commands of `cmds` in front. -/
def startOffsetsFrom (f : Int) (cmds : List ImDrawCmd) : List Int :=
  (List.range cmds.length).map fun i => toInt32 (f + elemCountSum (cmds.take i))

/-- The running offset in front of every command of a command buffer. -/
def startOffsets (cmds : List ImDrawCmd) : List Int := startOffsetsFrom 0 cmds

/-- The calls the replayer issues for one command, in the words of the spec: a
command with a user callback invokes the callback with the list and the
command and nothing else; any other command binds its texture, sets the
scissor rectangle and draws `ElemCount` indices from the running offset. -/
def commandCalls (h : Host) (list : ImDrawList) (FrameBufferHeight : CFloat)
    (cmd : ImDrawCmd) (first : Int) : List GLCall :=
  match cmd.UserCallback with
  | some cb => [.UserCallback cb list cmd]
  | none =>
    [.glBindTexture GL_TEXTURE_2D (handleToName h.ptrBits cmd.TextureId),
     .glScissor (floatToInt cmd.ClipRect.x) (floatToInt (FrameBufferHeight - cmd.ClipRect.w))
       (floatToInt (cmd.ClipRect.z - cmd.ClipRect.x)) (floatToInt (cmd.ClipRect.w - cmd.ClipRect.y)),
     .glDrawElements GL_TRIANGLES (toInt32 cmd.ElemCount) GL_UNSIGNED_SHORT first]

/-- The three array pointer calls at the head of `drawCommandList`. -/
def pointerCalls : List GLCall :=
  [.glVertexPointer 2 GL_FLOAT .pos, .glTexCoordPointer 2 GL_FLOAT .uv,
   .glColorPointer 4 GL_UNSIGNED_BYTE .col]

/-- The `glDrawElements` calls of a trace, in order: for each the position in
the index buffer it starts at and its count. -/
def drawRanges (log : List GLCall) : List (Int × Int) :=
  log.filterMap fun c =>
    match c with
    | .glDrawElements _ count _ first => some (first, count)
    | _ => none

/-- The calls a driver function added to the trace of the world it ran in. -/
def issuedCalls (before after : World) : List GLCall := after.log.drop before.log.length

/-- The ranges `[start, start + count)` listed in `rs` follow one another from
`s` to `e`: the first starts at `s`, each next one starts where the one before
ends, no count is negative, and the last ends at `e` (`s = e` when there is
none). -/
def tiles (s : Int) (rs : List (Int × Int)) (e : Int) : Bool :=
  match rs with
  | [] => decide (s = e)
  | (start, count) :: rest => decide (start = s) && decide (0 ≤ count) && tiles (s + count) rest e

/-- The start offsets of the draw calls in the words of the claim that only
drawing commands advance the running offset: for every command without a
user callback, the sum of the `ElemCount` values of the commands in front of
it that have no user callback. -/
def claimedStartOffsets (cmds : List ImDrawCmd) : List Int :=
  cmds.enum.filterMap fun p =>
    if p.2.UserCallback.isNone then
      some ((elemCountSum ((cmds.take p.1).filter fun c => c.UserCallback.isNone) : Nat) : Int)
    else none

/-- The calls `createFontTextureWithHandle` and `createTextureFromImageInternal`
issue around the upload of a texture with the new name `name` while the
texture `old` is bound. -/
def creationCalls (old : Nat) (name : Nat) (internalformat width height : Int) (format : GLenum)
    (pixels : PixelData) : List GLCall :=
  [.glGetIntegerv GL_TEXTURE_BINDING_2D (toInt32 old),
   .glGenTextures 1 name,
   .glBindTexture GL_TEXTURE_2D name,
   .glTexParameteri GL_TEXTURE_2D GL_TEXTURE_MIN_FILTER GL_LINEAR,
   .glTexParameteri GL_TEXTURE_2D GL_TEXTURE_MAG_FILTER GL_LINEAR,
   .glTexImage2D GL_TEXTURE_2D 0 internalformat width height 0 format GL_UNSIGNED_BYTE pixels,
   .glBindTexture GL_TEXTURE_2D (toUInt32 (toInt32 old))]

/-- Store the listed colours in the listed cells, one after the other, and
record the cells written. -/
def applyWrites (ws : List (Nat × RGBA)) (buf : ImageBuffer) : ImageBuffer :=
  ws.foldl (fun b p => { cells := b.cells.set p.1 (some p.2), writes := b.writes ++ [p.1] }) buf

/-- The stores of the conversion of an image of width `W` and height `H` in the
order of the two loops: for every `X` below `W` and, inside, every `Y` below
`H`, the colour of pixel `(X, Y)` goes to cell `X + Y * W`. -/
def pixelWrites (pImage : IImage) (W H : Nat) : List (Nat × RGBA) :=
  (List.range W).flatMap fun X =>
    (List.range H).map fun Y => (X + Y * W, toOpenGLColor (pImage.getPixel X Y))

/-- An image of 65536 x 65536 black pixels. -/
def hugeImage : IImage := { Width := 65536, Height := 65536, getPixel := fun _ _ => 0 }

/-- A 2 x 3 image whose pixel `(X, Y)` has the colour `0xFF000000 + 16 * X + Y`. -/
def smallImage : IImage :=
  { Width := 2, Height := 3, getPixel := fun X Y => 0xFF000000 + 16 * X + Y }

/-- The calls that leave the attribute stack and the saved part of the matrix
stacks alone: every call except the pushes, the pops and the user callbacks. -/
def GLCall.keepsStacks : GLCall → Bool
  | .glPushAttrib _ => false
  | .glPopAttrib => false
  | .glPushMatrix => false
  | .glPopMatrix => false
  | .UserCallback _ _ _ => false
  | _ => true

/-- The context `g` is inside a frame opened on the context `g0`: on top of
the attribute stack lies the entry the state guard pushed on `g0`, and below
the current projection and model-view matrices lie the ones of `g0`. -/
def InFrame (g0 g : GLState) : Prop :=
  g.attribStack
      = { mask := GL_ENABLE_BIT ||| GL_COLOR_BUFFER_BIT ||| GL_TRANSFORM_BIT,
          blend := g0.blend, cullFace := g0.cullFace, depthTest := g0.depthTest,
          scissorTest := g0.scissorTest, texture2D := g0.texture2D, blendSrc := g0.blendSrc,
          blendDst := g0.blendDst, matrixMode := g0.matrixMode } :: g0.attribStack
  ∧ g.projection.below = g0.projection.top :: g0.projection.below
  ∧ g.projection.maxDepth = g0.projection.maxDepth
  ∧ g.modelview.below = g0.modelview.top :: g0.modelview.below
  ∧ g.modelview.maxDepth = g0.modelview.maxDepth

/-- No command of the draw data carries a user callback. -/
def ImDrawData.noCallbacks (d : ImDrawData) : Prop :=
  ∀ l ∈ d.CmdLists, ∀ c ∈ l.CmdBuffer, c.UserCallback = none

/-! ## Concrete inputs -/

/-- A matrix stack that holds the identity matrix only. -/
def exampleStack (maxDepth : Nat) : MatrixStack := { top := 1, below := [], maxDepth := maxDepth }

/-- An OpenGL context of a host engine in the middle of 3D rendering: texture 7
bound, culling and depth test on, blending off. -/
def exampleGL : GLState :=
  { blend := false, cullFace := true, depthTest := true, scissorTest := false, texture2D := true,
    blendSrc := 1, blendDst := 0, matrixMode := .GL_TEXTURE, boundTexture2D := 7,
    projection := exampleStack 2, modelview := exampleStack 32, texture := exampleStack 2,
    attribStack := [], maxAttribStackDepth := 16, scissorBox := (0, 0, 800, 600),
    vertexArray := false, texCoordArray := false, colorArray := false,
    textureNames := [7], genName := fun used => used.foldl max 0 + 1,
    nonFiniteOrtho := fun m => m, error := GL_NO_ERROR }

/-- An 800x600 display with framebuffer scale 1 and a 2x2 font atlas. -/
def exampleGui : ImGuiIO :=
  { DisplaySize := { x := .finite 800, y := .finite 600 },
    DisplayFramebufferScale := { x := .finite 1, y := .finite 1 },
    Fonts := { TexID := 0, TexPixelsAlpha8 := [255, 0, 0, 255], TexWidth := 2, TexHeight := 2 } }

/-- The example context and display with an empty trace. -/
def exampleWorld : World := { gl := exampleGL, gui := exampleGui, log := [] }

/-- A 64-bit host whose callbacks switch the scissor test off. -/
def exampleHost : Host :=
  { ptrBits := 64, runCallback := fun _ _ _ g => { g with scissorTest := false } }

/-- A drawing command with clip rectangle (10, 20, 110, 70). -/
def exampleDrawCmd (ElemCount : Nat) : ImDrawCmd :=
  { ElemCount := ElemCount,
    ClipRect := { x := .finite 10, y := .finite 20, z := .finite 110, w := .finite 70 },
    TextureId := 7,
    UserCallback := none }

/-- A command that carries the user callback at address 4096. -/
def exampleCallbackCmd (ElemCount : Nat) : ImDrawCmd :=
  { ElemCount := ElemCount,
    ClipRect := { x := .finite 0, y := .finite 0, z := .finite 0, w := .finite 0 },
    TextureId := 0,
    UserCallback := some 4096 }

/-- A command list with the given commands and `n` indices. -/
def exampleList (cmds : List ImDrawCmd) (n : Nat) : ImDrawList :=
  { CmdBuffer := cmds, IdxBuffer := List.replicate n 0, VtxBuffer := [] }

/-- The draw data of a frame with two command lists and no user callback. -/
def exampleDrawData : ImDrawData :=
  { CmdLists := [exampleList [exampleDrawCmd 3, exampleDrawCmd 6] 9, exampleList [exampleDrawCmd 3] 3] }

/-- The calls of the constructor of the state guard while the texture `old`
is bound. -/
def guardOpenCalls (old : Nat) : List GLCall :=
  [.glGetIntegerv GL_TEXTURE_BINDING_2D (toInt32 old),
   .glPushAttrib (GL_ENABLE_BIT ||| GL_COLOR_BUFFER_BIT ||| GL_TRANSFORM_BIT),
   .glMatrixMode .GL_PROJECTION, .glPushMatrix, .glMatrixMode .GL_MODELVIEW, .glPushMatrix]

/-- The calls that configure the pipeline for a frame on a display of the
given logical width and height. -/
def setupCalls (width height : CFloat) : List GLCall :=
  [.glEnable .GL_BLEND, .glBlendFunc GL_SRC_ALPHA GL_ONE_MINUS_SRC_ALPHA,
   .glDisable .GL_CULL_FACE, .glDisable .GL_DEPTH_TEST, .glEnable .GL_SCISSOR_TEST,
   .glEnableClientState .GL_VERTEX_ARRAY, .glEnableClientState .GL_TEXTURE_COORD_ARRAY,
   .glEnableClientState .GL_COLOR_ARRAY, .glEnable .GL_TEXTURE_2D,
   .glMatrixMode .GL_PROJECTION, .glLoadIdentity,
   .glOrtho (.finite 0) width height (.finite 0) (.finite (-1)) (.finite 1),
   .glMatrixMode .GL_MODELVIEW, .glLoadIdentity]

/-- The calls of one command list drawn on a framebuffer of the given height. -/
def listCalls (h : Host) (FrameBufferHeight : CFloat) (list : ImDrawList) : List GLCall :=
  pointerCalls
    ++ (List.zipWith (commandCalls h list FrameBufferHeight) list.CmdBuffer
          (startOffsets list.CmdBuffer)).flatten

/-- The calls that close a frame: the client arrays are switched off and the
state guard is destroyed, rebinding the texture `old`. -/
def guardCloseCalls (old : Nat) : List GLCall :=
  [.glDisableClientState .GL_COLOR_ARRAY, .glDisableClientState .GL_TEXTURE_COORD_ARRAY,
   .glDisableClientState .GL_VERTEX_ARRAY,
   .glMatrixMode .GL_MODELVIEW, .glPopMatrix, .glMatrixMode .GL_PROJECTION, .glPopMatrix,
   .glPopAttrib, .glBindTexture GL_TEXTURE_2D (toUInt32 (toInt32 old))]

/-- The `glOrtho` calls of a trace: for each the planes left, right, bottom and
top. -/
def orthoExtents (log : List GLCall) : List (CFloat × CFloat × CFloat × CFloat) :=
  log.filterMap fun c =>
    match c with
    | .glOrtho l r b t _ _ => some (l, r, b, t)
    | _ => none

/-- The `glScissor` calls of a trace: for each the origin and the size. -/
def scissorBoxes (log : List GLCall) : List (Int × Int × Int × Int) :=
  log.filterMap fun c =>
    match c with
    | .glScissor x y width height => some (x, y, width, height)
    | _ => none

/-- The example context on an 800x600 display whose framebuffer has twice the
density (1600x1200 pixels). -/
def exampleWorldHiDpi : World :=
  { gl := exampleGL,
    gui := { exampleGui with DisplayFramebufferScale := { x := .finite 2, y := .finite 2 } },
    log := [] }

/-- The example context on a display of height 2^25 with framebuffer scale 1. -/
def exampleWorldTall : World :=
  { gl := exampleGL,
    gui := { exampleGui with DisplaySize := { x := .finite 800, y := .finite 33554432 } },
    log := [] }

/-- A drawing command with clip rectangle (0, 0, 1, 1). -/
def exampleUnitClipCmd : ImDrawCmd :=
  { ElemCount := 6,
    ClipRect := { x := .finite 0, y := .finite 0, z := .finite 1, w := .finite 1 },
    TextureId := 7, UserCallback := none }

/-- The draw data of a frame with one command list of one drawing command. -/
def exampleSingleDrawData : ImDrawData := { CmdLists := [exampleList [exampleDrawCmd 6] 6] }

/-! ## Theorems -/

theorem toInt32_toInt32_add (a b : Int) : toInt32 (toInt32 a + b) = toInt32 (a + b) := by
  unfold toInt32; omega

theorem toInt32_eq_self (z : Int) (h0 : -2147483648 ≤ z) (h1 : z < 2147483648) :
    toInt32 z = z := by
  unfold toInt32; omega

theorem startOffsetsFrom_cons (f : Int) (c : ImDrawCmd) (cs : List ImDrawCmd) :
    startOffsetsFrom f (c :: cs) = toInt32 f :: startOffsetsFrom (f + c.ElemCount) cs := by
  simp only [startOffsetsFrom, List.length_cons, List.range_succ_eq_map, List.map_cons,
    List.map_map, List.take_zero, elemCountSum, List.map_nil, List.sum_nil]
  refine congrArg₂ _ (by simp) ?_
  apply List.map_congr_left
  intro i _
  simp [List.take_succ_cons, add_assoc]

theorem issue_log (h : Host) (w : World) (c : GLCall) : (w.issue h c).log = w.log ++ [c] := rfl

theorem issue_gui (h : Host) (w : World) (c : GLCall) : (w.issue h c).gui = w.gui := rfl

theorem loop_log (h : Host) (list : ImDrawList) (fbh : CFloat) :
    ∀ (cmds : List ImDrawCmd) (f : Int) (w : World),
      (drawCommandList.loop h list fbh cmds (toInt32 f) w).log
        = w.log ++ (List.zipWith (commandCalls h list fbh) cmds (startOffsetsFrom f cmds)).flatten := by
  intro cmds
  induction cmds with
  | nil => intro f w; simp [drawCommandList.loop, startOffsetsFrom]
  | cons c cs ih =>
    intro f w
    rw [startOffsetsFrom_cons, List.zipWith_cons_cons, List.flatten_cons]
    unfold drawCommandList.loop
    rw [toInt32_toInt32_add, ih]
    cases hcb : c.UserCallback <;> simp [commandCalls, hcb, issue_log]

theorem drawCommandList_log (h : Host) (list : ImDrawList) (w : World) :
    (drawCommandList h list w).log
      = w.log ++ pointerCalls
        ++ (List.zipWith
              (commandCalls h list (w.gui.DisplaySize.y * w.gui.DisplayFramebufferScale.y))
              list.CmdBuffer (startOffsets list.CmdBuffer)).flatten := by
  unfold drawCommandList startOffsets
  have h0 : toInt32 0 = 0 := by decide
  have hl := loop_log h list (w.gui.DisplaySize.y * w.gui.DisplayFramebufferScale.y)
    list.CmdBuffer 0
  rw [h0] at hl
  simp only []
  rw [hl]
  simp [issue_log, pointerCalls]

theorem flatten_zipWith_eq_enum {β : Type} (g : ImDrawCmd → Int → List β) (off : Nat → Int)
    (cmds : List ImDrawCmd) :
    (List.zipWith g cmds ((List.range cmds.length).map off)).flatten
      = cmds.enum.flatMap (fun p => g p.2 (off p.1)) := by
  rw [List.enum_eq_zip_range, List.flatMap_def, List.zipWith_map_right]
  congr 1
  rw [List.zip_eq_zipWith, List.map_zipWith]
  rw [List.zipWith_comm]

theorem issuedCalls_eq (w w' : World) (l : List GLCall) (hl : w'.log = w.log ++ l) :
    issuedCalls w w' = l := by
  simp [issuedCalls, hl]

theorem drawCommandList_issued (h : Host) (list : ImDrawList) (w : World) :
    issuedCalls w (drawCommandList h list w)
      = pointerCalls
        ++ (List.zipWith
              (commandCalls h list (w.gui.DisplaySize.y * w.gui.DisplayFramebufferScale.y))
              list.CmdBuffer (startOffsets list.CmdBuffer)).flatten := by
  apply issuedCalls_eq
  rw [drawCommandList_log, List.append_assoc]

theorem drawRanges_append (a b : List GLCall) :
    drawRanges (a ++ b) = drawRanges a ++ drawRanges b := by
  simp [drawRanges, List.filterMap_append]

theorem drawRanges_commandCalls (h : Host) (list : ImDrawList) (fbh : CFloat) (cmd : ImDrawCmd)
    (first : Int) :
    drawRanges (commandCalls h list fbh cmd first)
      = if cmd.UserCallback.isNone then [(first, toInt32 cmd.ElemCount)] else [] := by
  cases hcb : cmd.UserCallback <;> simp [commandCalls, hcb, drawRanges]

theorem drawRanges_pointerCalls : drawRanges pointerCalls = [] := rfl

/-- C4: the calls `drawCommandList` adds to the trace are the three array
pointer calls followed, for each command of the list in order, by the calls of
that command: for a command with a user callback exactly one invocation of
that callback with the list and the command, and no bind, scissor or draw
call; for a command without one exactly one `glBindTexture`, one `glScissor`
and one `glDrawElements`, in that order, and no callback invocation. -/
theorem drawCommandList_calls_per_command (h : Host) (list : ImDrawList) (w : World) :
    issuedCalls w (drawCommandList h list w)
      = pointerCalls ++ list.CmdBuffer.enum.flatMap (fun p =>
          match p.2.UserCallback with
          | some cb => [GLCall.UserCallback cb list p.2]
          | none =>
            [GLCall.glBindTexture GL_TEXTURE_2D (handleToName h.ptrBits p.2.TextureId),
             GLCall.glScissor (floatToInt p.2.ClipRect.x)
               (floatToInt (w.gui.DisplaySize.y * w.gui.DisplayFramebufferScale.y - p.2.ClipRect.w))
               (floatToInt (p.2.ClipRect.z - p.2.ClipRect.x))
               (floatToInt (p.2.ClipRect.w - p.2.ClipRect.y)),
             GLCall.glDrawElements GL_TRIANGLES (toInt32 p.2.ElemCount) GL_UNSIGNED_SHORT
               (toInt32 (elemCountSum (list.CmdBuffer.take p.1)))]) := by
  rw [drawCommandList_issued]
  congr 1
  unfold startOffsets startOffsetsFrom
  rw [flatten_zipWith_eq_enum]
  refine congrArg (List.flatMap list.CmdBuffer.enum) ?_
  funext p
  cases hcb : p.2.UserCallback <;> simp [commandCalls, hcb]

theorem drawRanges_issued (h : Host) (list : ImDrawList) (w : World) :
    drawRanges (issuedCalls w (drawCommandList h list w))
      = list.CmdBuffer.enum.filterMap (fun p =>
          if p.2.UserCallback.isNone then
            some (toInt32 (elemCountSum (list.CmdBuffer.take p.1)), toInt32 p.2.ElemCount)
          else none) := by
  rw [drawCommandList_issued, drawRanges_append, drawRanges_pointerCalls, List.nil_append]
  unfold startOffsets startOffsetsFrom
  rw [flatten_zipWith_eq_enum]
  generalize list.CmdBuffer.enum = ps
  induction ps with
  | nil => rfl
  | cons p ps ih =>
    rw [List.flatMap_cons, drawRanges_append, ih, List.filterMap_cons, drawRanges_commandCalls]
    cases hcb : p.2.UserCallback <;> simp

/-- C10 (as amended): the running offset starts at zero and every command,
with or without a user callback, advances it by its `ElemCount`: the start
offset of each issued draw call is the 32-bit `int` value of the sum of the
`ElemCount` values of all commands in front of it in the list. -/
theorem drawCommandList_start_offsets (h : Host) (list : ImDrawList) (w : World) :
    (drawRanges (issuedCalls w (drawCommandList h list w))).map Prod.fst
      = list.CmdBuffer.enum.filterMap (fun p =>
          if p.2.UserCallback.isNone then
            some (toInt32 (elemCountSum (list.CmdBuffer.take p.1)))
          else none) := by
  rw [drawRanges_issued, List.map_filterMap]
  refine congrArg (fun f => List.filterMap f list.CmdBuffer.enum) ?_
  funext p
  cases hcb : p.2.UserCallback <;> simp

/-- C10 (as stated) fails: for a callback command with `ElemCount` 3 followed
by a drawing command, the draw call starts at offset 3, while the commands in
front of it that have no user callback sum to 0. -/
theorem drawCommandList_start_offsets_counterexample :
    (drawRanges (issuedCalls exampleWorld
        (drawCommandList exampleHost (exampleList [exampleCallbackCmd 3, exampleDrawCmd 6] 9)
          exampleWorld))).map Prod.fst = [3]
    ∧ claimedStartOffsets [exampleCallbackCmd 3, exampleDrawCmd 6] = [0] := by
  constructor
  · rw [drawRanges_issued]
    simp [exampleList, exampleCallbackCmd, exampleDrawCmd, List.enum, List.enumFrom, elemCountSum,
      toInt32]
  · simp [claimedStartOffsets, exampleCallbackCmd, exampleDrawCmd, List.enum, List.enumFrom,
      elemCountSum]

theorem elemCountSum_cons (c : ImDrawCmd) (cs : List ImDrawCmd) :
    elemCountSum (c :: cs) = c.ElemCount + elemCountSum cs := by
  simp [elemCountSum]

theorem elemCountSum_append (a b : List ImDrawCmd) :
    elemCountSum (a ++ b) = elemCountSum a + elemCountSum b := by
  simp [elemCountSum]

theorem tiles_commandCalls (h : Host) (list : ImDrawList) (fbh : CFloat) :
    ∀ (cmds : List ImDrawCmd) (f : Int), 0 ≤ f → f + elemCountSum cmds < 2147483648 →
      (∀ c ∈ cmds, c.UserCallback ≠ none → c.ElemCount = 0) →
      tiles f (drawRanges (List.zipWith (commandCalls h list fbh) cmds
        (startOffsetsFrom f cmds)).flatten) (f + elemCountSum cmds) = true := by
  intro cmds
  induction cmds with
  | nil => intro f _ _ _; simp [startOffsetsFrom, drawRanges, tiles, elemCountSum]
  | cons c cs ih =>
    intro f hf hsum hcb
    rw [elemCountSum_cons] at hsum
    have hcs : ∀ c' ∈ cs, c'.UserCallback ≠ none → c'.ElemCount = 0 :=
      fun c' hc' => hcb c' (List.mem_cons_of_mem c hc')
    have hrest := ih (f + c.ElemCount) (by omega) (by push_cast at hsum ⊢; omega) hcs
    rw [startOffsetsFrom_cons, List.zipWith_cons_cons, List.flatten_cons, drawRanges_append,
      drawRanges_commandCalls, elemCountSum_cons]
    cases hu : c.UserCallback with
    | some cb =>
      have h0 : c.ElemCount = 0 := hcb c (List.mem_cons_self c cs) (by simp [hu])
      simp only [Option.isNone_some, Bool.false_eq_true, if_false, List.nil_append]
      rw [h0] at hrest ⊢
      simpa using hrest
    | none =>
      have h1 : toInt32 f = f := toInt32_eq_self f (by omega) (by push_cast at hsum; omega)
      have h2 : toInt32 c.ElemCount = c.ElemCount :=
        toInt32_eq_self _ (by omega) (by push_cast at hsum; omega)
      simp only [Option.isNone_none, if_true, List.singleton_append, tiles, h1, h2]
      have h3 : (f + ((c.ElemCount + elemCountSum cs : Nat) : Int))
          = f + c.ElemCount + elemCountSum cs := by push_cast; ring
      rw [h3]
      simpa using hrest

/-- C2 (as amended): for every command list whose `ElemCount` values sum to the
length of its index buffer (a vector, so shorter than `2^31`) and whose
callback commands have `ElemCount` 0, the `glDrawElements` calls issued by
`drawCommandList`, in order, cover the index buffer exactly once: the first
starts at 0, each next one starts where the one before ends, and the last ends
at the length of the index buffer. -/
theorem drawCommandList_consumes_index_buffer (h : Host) (list : ImDrawList) (w : World)
    (hsum : elemCountSum list.CmdBuffer = list.IdxBuffer.length)
    (hsize : list.IdxBuffer.length < 2147483648)
    (hcb : ∀ c ∈ list.CmdBuffer, c.UserCallback ≠ none → c.ElemCount = 0) :
    tiles 0 (drawRanges (issuedCalls w (drawCommandList h list w))) list.IdxBuffer.length
      = true := by
  rw [drawCommandList_issued, drawRanges_append, drawRanges_pointerCalls, List.nil_append]
  have ht := tiles_commandCalls h list (w.gui.DisplaySize.y * w.gui.DisplayFramebufferScale.y)
    list.CmdBuffer 0 (le_refl 0) (by omega) hcb
  rw [hsum] at ht
  simpa [startOffsets] using ht

/-- C2 at a concrete list: a draw of 3 indices, a callback command with
`ElemCount` 0 and a draw of 6 indices cover an index buffer of 9 entries. -/
theorem drawCommandList_consumes_index_buffer_witness :
    tiles 0 (drawRanges (issuedCalls exampleWorld (drawCommandList exampleHost
      (exampleList [exampleDrawCmd 3, exampleCallbackCmd 0, exampleDrawCmd 6] 9) exampleWorld)))
      (exampleList [exampleDrawCmd 3, exampleCallbackCmd 0, exampleDrawCmd 6] 9).IdxBuffer.length
      = true :=
  drawCommandList_consumes_index_buffer exampleHost
    (exampleList [exampleDrawCmd 3, exampleCallbackCmd 0, exampleDrawCmd 6] 9) exampleWorld
    (by decide) (by decide) (by decide)

/-- C2 (as stated) fails: the `ElemCount` values 3, 3, 3 of a draw, a callback
command and a draw sum to the 9 entries of the index buffer, yet the two draw
calls cover `[0, 3)` and `[6, 9)` and leave the gap `[3, 6)`. -/
theorem drawCommandList_consumes_index_buffer_counterexample :
    elemCountSum (exampleList [exampleDrawCmd 3, exampleCallbackCmd 3, exampleDrawCmd 3] 9).CmdBuffer
      = (exampleList [exampleDrawCmd 3, exampleCallbackCmd 3, exampleDrawCmd 3] 9).IdxBuffer.length
    ∧ drawRanges (issuedCalls exampleWorld (drawCommandList exampleHost
        (exampleList [exampleDrawCmd 3, exampleCallbackCmd 3, exampleDrawCmd 3] 9) exampleWorld))
      = [(0, 3), (6, 3)]
    ∧ tiles 0 [(0, 3), (6, 3)] 9 = false := by
  refine ⟨by decide, ?_, by decide⟩
  rw [drawRanges_issued]
  simp [exampleList, exampleCallbackCmd, exampleDrawCmd, List.enum, List.enumFrom, elemCountSum,
    toInt32]

theorem ulpExponent_eq (q : ℚ) (E : ℤ) (hlo : (2 : ℚ) ^ E ≤ |q|)
    (hhi : |q| < (2 : ℚ) ^ (E + 1)) : CFloat.ulpExponent q = max E (-126) - 23 := by
  unfold CFloat.ulpExponent
  have hpos : 0 < |q| := lt_of_lt_of_le (zpow_pos (by norm_num) E) hlo
  have h1 : E ≤ Int.log 2 |q| :=
    (Int.zpow_le_iff_le_log (b := 2) (by norm_num) hpos).mp (by exact_mod_cast hlo)
  have h2 : Int.log 2 |q| < E + 1 :=
    (Int.lt_zpow_iff_log_lt (b := 2) (by norm_num) hpos).mp (by exact_mod_cast hhi)
  have h3 : Int.log 2 |q| = E := by omega
  rw [h3]

theorem roundHalfEven_intCast (M : ℤ) : roundHalfEven (M : ℚ) = M := by
  unfold roundHalfEven
  simp

theorem roundHalfEven_eq (m : ℚ) (k : ℤ) (h1 : (k : ℚ) ≤ m) (h2 : m < k + 1) :
    roundHalfEven m
      = if m - k < 1 / 2 then k else if 1 / 2 < m - k then k + 1
        else if k % 2 = 0 then k else k + 1 := by
  have hk : ⌊m⌋ = k := Int.floor_eq_iff.mpr ⟨h1, h2⟩
  unfold roundHalfEven
  simp only [hk]

theorem round_of_exact (q : ℚ) (M : ℤ) (hq : q ≠ 0)
    (hM : |q| / 2 ^ CFloat.ulpExponent q = (M : ℚ)) (hlt : |q| < (2 : ℚ) ^ (128 : ℕ)) :
    CFloat.round q = .finite q := by
  have hpow : (2 : ℚ) ^ CFloat.ulpExponent q ≠ 0 := zpow_ne_zero _ (by norm_num)
  have hval : (M : ℚ) * 2 ^ CFloat.ulpExponent q = |q| := by
    rw [← hM]; field_simp
  unfold CFloat.round
  rw [if_neg hq]
  simp only [hM, roundHalfEven_intCast, hval]
  rw [if_neg (not_le.mpr hlt)]
  congr 1
  split
  · rename_i hneg; rw [abs_of_neg hneg]; ring
  · rename_i hneg; rw [abs_of_nonneg (not_lt.mp hneg)]; ring

theorem round_intCast (z : ℤ) (hz : |z| ≤ 16777216) :
    CFloat.round (z : ℚ) = .finite (z : ℚ) := by
  by_cases h0 : z = 0
  · subst h0; simp [CFloat.round]
  have hq : (z : ℚ) ≠ 0 := by exact_mod_cast h0
  have habs : |(z : ℚ)| = ((|z| : ℤ) : ℚ) := by simp
  have hpos : 1 ≤ |z| := Int.one_le_abs h0
  obtain ⟨L, hL24, hlo, hhi⟩ : ∃ L : ℕ, L ≤ 24 ∧ (2 : ℤ) ^ L ≤ |z| ∧ |z| < 2 ^ (L + 1) := by
    refine ⟨Nat.log 2 |z|.toNat, ?_, ?_, ?_⟩
    · have h1 : |z|.toNat < 2 ^ 25 := by omega
      have h2 := Nat.log_lt_of_lt_pow (b := 2) (by omega) h1
      omega
    · have h1 := Nat.pow_log_le_self 2 (x := |z|.toNat) (by omega)
      have h2 : ((2 ^ Nat.log 2 |z|.toNat : ℕ) : ℤ) ≤ ((|z|.toNat : ℕ) : ℤ) := by
        exact_mod_cast h1
      rw [Int.toNat_of_nonneg (abs_nonneg z)] at h2
      exact_mod_cast h2
    · have h1 := Nat.lt_pow_succ_log_self (b := 2) (by norm_num) |z|.toNat
      have h2 : ((|z|.toNat : ℕ) : ℤ) < ((2 ^ (Nat.log 2 |z|.toNat).succ : ℕ) : ℤ) := by
        exact_mod_cast h1
      rw [Int.toNat_of_nonneg (abs_nonneg z)] at h2
      exact_mod_cast h2
  have hE : CFloat.ulpExponent (z : ℚ) = max (L : ℤ) (-126) - 23 := by
    apply ulpExponent_eq
    · rw [habs, zpow_natCast]; exact_mod_cast hlo
    · rw [habs]
      have hc : ((L : ℤ) + 1) = ((L + 1 : ℕ) : ℤ) := by push_cast; ring
      rw [hc, zpow_natCast]; exact_mod_cast hhi
  have hmax : max (L : ℤ) (-126) = L := max_eq_left (by omega)
  rw [hmax] at hE
  have hlt : |(z : ℚ)| < (2 : ℚ) ^ (128 : ℕ) := by
    rw [habs]
    have h1 : ((|z| : ℤ) : ℚ) ≤ 16777216 := by exact_mod_cast hz
    have h2 : (16777216 : ℚ) < 2 ^ (128 : ℕ) := by norm_num
    linarith
  by_cases hL : L ≤ 23
  · apply round_of_exact _ (|z| * 2 ^ (23 - L)) hq _ hlt
    rw [hE, habs]
    have hc : ((L : ℤ) - 23) = -((23 - L : ℕ) : ℤ) := by omega
    rw [hc, zpow_neg, zpow_natCast]
    push_cast
    field_simp
  · have hL' : L = 24 := by omega
    subst hL'
    have hz' : |z| = 16777216 := by
      have h1 : (2 : ℤ) ^ 24 = 16777216 := by norm_num
      omega
    apply round_of_exact _ 8388608 hq _ hlt
    rw [hE, habs, hz']
    norm_num

theorem round_eq_intCast (q : ℚ) (z : ℤ) (hq : q = z) (hz : |z| ≤ 16777216) :
    CFloat.round q = .finite (z : ℚ) := by
  rw [hq]; exact round_intCast z hz

theorem finite_mul_finite (a b : ℚ) :
    CFloat.finite a * CFloat.finite b = CFloat.round (a * b) := rfl

theorem finite_sub_finite (a b : ℚ) :
    CFloat.finite a - CFloat.finite b = CFloat.round (a - b) := rfl

theorem floatToInt_finite_intCast (z : ℤ) (h1 : -2147483648 ≤ z) (h2 : z ≤ 2147483647) :
    floatToInt (.finite (z : ℚ)) = z := by
  unfold floatToInt
  simp only [Rat.num_intCast, Rat.den_intCast, Nat.cast_one, Int.ediv_one, neg_neg, ite_self]
  rw [if_pos ⟨h1, h2⟩]

theorem floatToInt_sub_intCast (a b : ℤ) (hd : |a - b| ≤ 16777216) :
    floatToInt (CFloat.finite (a : ℚ) - CFloat.finite (b : ℚ)) = a - b := by
  have hr : CFloat.round ((a : ℚ) - (b : ℚ)) = .finite ((a - b : ℤ) : ℚ) :=
    round_eq_intCast _ (a - b) (by push_cast; ring) hd
  have hb := abs_le.mp hd
  rw [finite_sub_finite, hr]
  exact floatToInt_finite_intCast (a - b) (by omega) (by omega)

theorem round_33554431 : CFloat.round 33554431 = .finite 33554432 := by
  have hE : CFloat.ulpExponent 33554431 = 1 := by
    rw [ulpExponent_eq 33554431 24 (by norm_num) (by norm_num)]; norm_num
  have hr : roundHalfEven (33554431 / 2) = 16777216 := by
    rw [roundHalfEven_eq (33554431 / 2) 16777215 (by norm_num) (by norm_num)]; norm_num
  unfold CFloat.round
  rw [hE]
  norm_num [hr]

theorem finite_600_mul_1_3f :
    CFloat.finite 600 * CFloat.finite (10905190 / 8388608) = .finite 780 := by
  have hq : (600 : ℚ) * (10905190 / 8388608) = 408944625 / 524288 := by norm_num
  have habs : |(408944625 / 524288 : ℚ)| = 408944625 / 524288 := abs_of_pos (by norm_num)
  have hE : CFloat.ulpExponent (408944625 / 524288) = -14 := by
    rw [ulpExponent_eq (408944625 / 524288) 9 (by rw [habs]; norm_num) (by rw [habs]; norm_num)]
    norm_num
  have hm : (408944625 / 524288 : ℚ) / 2 ^ (-14 : ℤ) = 408944625 / 32 := by
    rw [zpow_neg]; norm_num
  have hr : roundHalfEven (408944625 / 32) = 12779520 := by
    rw [roundHalfEven_eq (408944625 / 32) 12779519 (by norm_num) (by norm_num)]; norm_num
  have hne : ¬ ((408944625 / 524288 : ℚ) = 0) := by norm_num
  have hpos : ¬ ((408944625 / 524288 : ℚ) < 0) := by norm_num
  rw [finite_mul_finite, hq]
  unfold CFloat.round
  rw [if_neg hne]
  simp only [hE, habs, hm, hr, hpos, if_false]
  rw [zpow_neg]
  norm_num

theorem round_33554432 : CFloat.round 33554432 = .finite 33554432 :=
  round_of_exact 33554432 8388608 (by norm_num)
    (by rw [ulpExponent_eq 33554432 25 (by norm_num) (by norm_num)]; norm_num) (by norm_num)

theorem flatten_zipWith_split {β : Type} (g : ImDrawCmd → Int → List β) (cmd : ImDrawCmd)
    (post : List ImDrawCmd) :
    ∀ (pre : List ImDrawCmd) (f : Int),
      (List.zipWith g (pre ++ cmd :: post) (startOffsetsFrom f (pre ++ cmd :: post))).flatten
        = (List.zipWith g pre (startOffsetsFrom f pre)).flatten
          ++ g cmd (toInt32 (f + elemCountSum pre))
          ++ (List.zipWith g post
                (startOffsetsFrom (f + elemCountSum (pre ++ [cmd])) post)).flatten := by
  intro pre
  induction pre with
  | nil =>
    intro f
    rw [List.nil_append, startOffsetsFrom_cons, List.zipWith_cons_cons, List.flatten_cons]
    have e0 : f + (elemCountSum ([] ++ [cmd]) : Int) = f + (cmd.ElemCount : Int) := by
      simp [elemCountSum]
    have e1 : f + (elemCountSum ([] : List ImDrawCmd) : Int) = f := by simp [elemCountSum]
    rw [e0, e1]
    simp [startOffsetsFrom]
  | cons c cs ih =>
    intro f
    rw [List.cons_append, startOffsetsFrom_cons, startOffsetsFrom_cons, List.zipWith_cons_cons,
      List.zipWith_cons_cons, List.flatten_cons, List.flatten_cons, ih]
    have e1 : f + (c.ElemCount : Int) + (elemCountSum cs : Int) = f + (elemCountSum (c :: cs) : Int) := by
      rw [elemCountSum_cons]; push_cast; ring
    have e2 : f + (c.ElemCount : Int) + (elemCountSum (cs ++ [cmd]) : Int)
        = f + (elemCountSum (c :: cs ++ [cmd]) : Int) := by
      rw [List.cons_append, elemCountSum_cons]; push_cast; ring
    rw [e1, e2]
    simp [List.append_assoc]

/-- C3 (as amended): for every command without a user callback whose clip
rectangle has the integer values (left, top, right, bottom), and every integer
framebuffer height `H` (the `float` product of display height and framebuffer
scale), such that `left` fits a 32-bit `int` and the differences `H - bottom`,
`right - left` and `bottom - top` have magnitude at most `2 ^ 24`, the calls
`drawCommandList` issues for that command, between those of the commands in
front of it and those of the commands behind it, are a bind, the scissor call
with origin `(left, H - bottom)` and size `(right - left, bottom - top)`, and a
draw. -/
theorem drawCommandList_scissor (h : Host) (list : ImDrawList) (w : World)
    (pre post : List ImDrawCmd) (cmd : ImDrawCmd) (left top right bottom H : Int)
    (hsplit : list.CmdBuffer = pre ++ cmd :: post)
    (hcb : cmd.UserCallback = none)
    (hclip : cmd.ClipRect
      = { x := .finite left, y := .finite top, z := .finite right, w := .finite bottom })
    (hH : w.gui.DisplaySize.y * w.gui.DisplayFramebufferScale.y = .finite H)
    (hleft : -2147483648 ≤ left ∧ left ≤ 2147483647)
    (hy : |H - bottom| ≤ 16777216)
    (hwidth : |right - left| ≤ 16777216)
    (hheight : |bottom - top| ≤ 16777216) :
    issuedCalls w (drawCommandList h list w)
      = pointerCalls
        ++ (List.zipWith (commandCalls h list (.finite H)) pre (startOffsets pre)).flatten
        ++ [GLCall.glBindTexture GL_TEXTURE_2D (handleToName h.ptrBits cmd.TextureId),
            GLCall.glScissor left (H - bottom) (right - left) (bottom - top),
            GLCall.glDrawElements GL_TRIANGLES (toInt32 cmd.ElemCount) GL_UNSIGNED_SHORT
              (toInt32 (elemCountSum pre))]
        ++ (List.zipWith (commandCalls h list (.finite H)) post
              (startOffsetsFrom (elemCountSum (pre ++ [cmd])) post)).flatten := by
  rw [drawCommandList_issued, hsplit, hH]
  unfold startOffsets
  rw [flatten_zipWith_split]
  have hc : commandCalls h list (.finite H) cmd (toInt32 (0 + (elemCountSum pre : Int)))
      = [GLCall.glBindTexture GL_TEXTURE_2D (handleToName h.ptrBits cmd.TextureId),
         GLCall.glScissor left (H - bottom) (right - left) (bottom - top),
         GLCall.glDrawElements GL_TRIANGLES (toInt32 cmd.ElemCount) GL_UNSIGNED_SHORT
           (toInt32 (elemCountSum pre))] := by
    unfold commandCalls
    rw [hcb, hclip]
    simp only [zero_add]
    rw [floatToInt_finite_intCast left hleft.1 hleft.2, floatToInt_sub_intCast H bottom hy,
      floatToInt_sub_intCast right left hwidth, floatToInt_sub_intCast bottom top hheight]
  rw [hc]
  simp only [zero_add, List.append_assoc]

/-- C3 at the input of the spec: clip rectangle (10, 20, 110, 70) on a
framebuffer of height 600 gives the scissor call with origin (10, 530) and
size (100, 50). -/
theorem drawCommandList_scissor_witness :
    issuedCalls exampleWorld
        (drawCommandList exampleHost (exampleList [exampleDrawCmd 6] 6) exampleWorld)
      = pointerCalls
        ++ (List.zipWith
              (commandCalls exampleHost (exampleList [exampleDrawCmd 6] 6)
                (.finite ((600 : Int) : ℚ)))
              [] (startOffsets [])).flatten
        ++ [GLCall.glBindTexture GL_TEXTURE_2D
              (handleToName exampleHost.ptrBits (exampleDrawCmd 6).TextureId),
            GLCall.glScissor 10 530 100 50,
            GLCall.glDrawElements GL_TRIANGLES (toInt32 (exampleDrawCmd 6).ElemCount)
              GL_UNSIGNED_SHORT (toInt32 (elemCountSum []))]
        ++ (List.zipWith
              (commandCalls exampleHost (exampleList [exampleDrawCmd 6] 6)
                (.finite ((600 : Int) : ℚ)))
              [] (startOffsetsFrom (elemCountSum ([] ++ [exampleDrawCmd 6])) [])).flatten :=
  drawCommandList_scissor exampleHost (exampleList [exampleDrawCmd 6] 6) exampleWorld [] []
    (exampleDrawCmd 6) 10 20 110 70 600 rfl rfl
    (by simp [exampleDrawCmd])
    (by
      simp only [exampleWorld, exampleGui, finite_mul_finite]
      exact round_eq_intCast _ 600 (by norm_num) (by norm_num))
    (by decide) (by decide) (by decide) (by decide)

/-- C3 (as stated) fails: with the integer framebuffer height `2 ^ 25` and the
integer clip rectangle (0, 0, 1, 1) the scissor origin is `2 ^ 25`, not
`H - bottom = 2 ^ 25 - 1`, because the `float` difference is rounded. -/
theorem drawCommandList_scissor_counterexample :
    exampleWorldTall.gui.DisplaySize.y * exampleWorldTall.gui.DisplayFramebufferScale.y
      = .finite ((33554432 : Int) : ℚ)
    ∧ exampleUnitClipCmd.ClipRect
      = { x := .finite ((0 : Int) : ℚ), y := .finite ((0 : Int) : ℚ),
          z := .finite ((1 : Int) : ℚ), w := .finite ((1 : Int) : ℚ) }
    ∧ scissorBoxes (issuedCalls exampleWorldTall
        (drawCommandList exampleHost (exampleList [exampleUnitClipCmd] 6) exampleWorldTall))
      = [(0, 33554432, 1, 1)]
    ∧ ((0 : Int), (33554432 : Int) - 1, (1 : Int) - 0, (1 : Int) - 0)
      ≠ (0, 33554432, 1, 1) := by
  have hH : exampleWorldTall.gui.DisplaySize.y * exampleWorldTall.gui.DisplayFramebufferScale.y
      = .finite 33554432 := by
    simp only [exampleWorldTall, exampleGui, finite_mul_finite, mul_one]
    exact round_33554432
  have hsub : CFloat.finite 33554432 - CFloat.finite 1 = .finite 33554432 := by
    rw [finite_sub_finite]
    have h1 : (33554432 : ℚ) - 1 = 33554431 := by norm_num
    rw [h1]
    exact round_33554431
  have h10 : CFloat.finite 1 - CFloat.finite 0 = .finite 1 := by
    rw [finite_sub_finite]
    exact round_eq_intCast _ 1 (by norm_num) (by norm_num)
  refine ⟨by rw [hH]; norm_num, by simp [exampleUnitClipCmd], ?_, by decide⟩
  rw [drawCommandList_issued, hH]
  simp only [scissorBoxes, pointerCalls, commandCalls, startOffsets, startOffsetsFrom,
    exampleList, exampleUnitClipCmd, hsub, h10, List.length_cons, List.length_nil,
    List.range_succ, List.range_zero, List.nil_append, List.map_cons, List.map_nil,
    List.zipWith_cons_cons, List.zipWith_nil_right, List.flatten_cons, List.flatten_nil,
    List.append_nil, List.filterMap_append, List.filterMap_cons, List.filterMap_nil]
  decide

theorem toIntPtr_modEq (bits : Nat) (z : Int) : toIntPtr bits z ≡ z [ZMOD 2 ^ bits] := by
  unfold toIntPtr
  have h1 := (Int.mod_modEq (z + 2 ^ (bits - 1)) (2 ^ bits)).sub_right (2 ^ (bits - 1))
  simpa using h1

theorem toPointer_modEq (bits : Nat) (z : Int) : (toPointer bits z : Int) ≡ z [ZMOD 2 ^ bits] := by
  unfold toPointer
  have hpos : (2 : Int) ^ bits ≠ 0 := pow_ne_zero _ (by norm_num)
  rw [Int.toNat_of_nonneg (Int.emod_nonneg z hpos)]
  exact Int.mod_modEq z _

theorem handleToName_nameToHandle (bits n : Nat) (hbits : 32 ≤ bits) (hn : n < 4294967296) :
    handleToName bits (nameToHandle bits n) = n := by
  unfold handleToName nameToHandle
  have h1 : toIntPtr bits (toPointer bits (toIntPtr bits n)) ≡ (n : Int) [ZMOD 2 ^ bits] :=
    ((toIntPtr_modEq bits _).trans (toPointer_modEq bits _)).trans (toIntPtr_modEq bits _)
  have hdvd : (4294967296 : Int) ∣ 2 ^ bits := by
    have h32 : (4294967296 : Int) = 2 ^ 32 := by norm_num
    rw [h32]
    exact pow_dvd_pow 2 hbits
  have h2 : toIntPtr bits (toPointer bits (toIntPtr bits n)) % 4294967296 = (n : Int) % 4294967296 :=
    Int.ModEq.of_dvd hdvd h1
  unfold toUInt32
  rw [h2]
  omega

theorem toUInt32_toInt32 (n : Nat) (hn : n < 4294967296) : toUInt32 (toInt32 n) = n := by
  unfold toUInt32 toInt32
  omega

/-- C5: on a host with pointers of at least 32 bits, for every 32-bit texture
name `n` the handle-to-name conversion undoes the name-to-handle conversion of
the two creation functions, and `deleteTextureInternal` as well as
`deleteFontTexture`, given the handle of `n`, issue exactly one call:
`glDeleteTextures` with count 1 and the name `n`. -/
theorem deleteTexture_releases_name (h : Host) (w : World) (n : Nat)
    (hbits : 32 ≤ h.ptrBits) (hn : n < 4294967296) :
    handleToName h.ptrBits (nameToHandle h.ptrBits n) = n
    ∧ issuedCalls w (deleteTextureInternal h (nameToHandle h.ptrBits n) w)
        = [GLCall.glDeleteTextures 1 n]
    ∧ issuedCalls w (deleteFontTexture h (nameToHandle h.ptrBits n) w)
        = [GLCall.glDeleteTextures 1 n] := by
  have hr := handleToName_nameToHandle h.ptrBits n hbits hn
  refine ⟨hr, ?_, ?_⟩
  · apply issuedCalls_eq
    simp only [deleteTextureInternal, issue_log, hr]
  · apply issuedCalls_eq
    simp only [deleteFontTexture, issue_log, hr]

/-- C5 at a concrete input: the largest 32-bit name on the 64-bit example
host. -/
theorem deleteTexture_releases_name_witness :
    handleToName exampleHost.ptrBits (nameToHandle exampleHost.ptrBits 4294967295) = 4294967295
    ∧ issuedCalls exampleWorld
        (deleteTextureInternal exampleHost (nameToHandle exampleHost.ptrBits 4294967295)
          exampleWorld) = [GLCall.glDeleteTextures 1 4294967295]
    ∧ issuedCalls exampleWorld
        (deleteFontTexture exampleHost (nameToHandle exampleHost.ptrBits 4294967295)
          exampleWorld) = [GLCall.glDeleteTextures 1 4294967295] :=
  deleteTexture_releases_name exampleHost exampleWorld 4294967295 (by decide) (by decide)

/-- C6: after `createFontTextureWithHandle` the handle recorded in the font
atlas equals the returned handle, both are the pointer-sized image of the name
the context handed out, and the calls issued contain exactly one
`glGenTextures`, the one that produced this name. -/
theorem createFontTextureWithHandle_records_handle (h : Host) (w : World) :
    (createFontTextureWithHandle h w).2.gui.Fonts.TexID = (createFontTextureWithHandle h w).1
    ∧ (createFontTextureWithHandle h w).1 = nameToHandle h.ptrBits w.gl.genTexture.1
    ∧ issuedCalls w (createFontTextureWithHandle h w).2
        = creationCalls w.gl.boundTexture2D w.gl.genTexture.1 GL_ALPHA w.gui.Fonts.TexWidth
            w.gui.Fonts.TexHeight GL_ALPHA (.alpha8 w.gui.Fonts.TexPixelsAlpha8) := by
  refine ⟨rfl, rfl, ?_⟩
  apply issuedCalls_eq
  simp [createFontTextureWithHandle, World.getTextureBinding2D, World.genTexture, issue_log,
    creationCalls, ImFontAtlas.GetTexDataAsAlpha8, World.issue, GLCall.exec]

theorem applyWrites_append (a b : List (Nat × RGBA)) (buf : ImageBuffer) :
    applyWrites (a ++ b) buf = applyWrites b (applyWrites a buf) := by
  simp [applyWrites, List.foldl_append]

theorem applyWrites_cons (p : Nat × RGBA) (ws : List (Nat × RGBA)) (buf : ImageBuffer) :
    applyWrites (p :: ws) buf
      = applyWrites ws { cells := buf.cells.set p.1 (some p.2), writes := buf.writes ++ [p.1] } :=
  rfl

theorem applyWrites_length (ws : List (Nat × RGBA)) :
    ∀ buf : ImageBuffer, (applyWrites ws buf).cells.length = buf.cells.length := by
  induction ws with
  | nil => intro buf; rfl
  | cons p ws ih => intro buf; rw [applyWrites_cons, ih]; simp

theorem applyWrites_writes (ws : List (Nat × RGBA)) :
    ∀ buf : ImageBuffer, (applyWrites ws buf).writes = buf.writes ++ ws.map Prod.fst := by
  induction ws with
  | nil => intro buf; simp [applyWrites]
  | cons p ws ih => intro buf; rw [applyWrites_cons, ih]; simp

theorem index_lt (W H X Y : Nat) (hX : X < W) (hY : Y < H) : X + Y * W < W * H := by
  have h1 : (Y + 1) * W ≤ H * W := Nat.mul_le_mul_right W hY
  have h2 : (Y + 1) * W = Y * W + W := by ring
  have h3 : H * W = W * H := Nat.mul_comm H W
  omega

theorem toInt32_natCast (n : Nat) (hn : n < 2147483648) : toInt32 (n : Int) = (n : Int) := by
  unfold toInt32; omega

theorem toUInt32_natCast (n : Nat) (hn : n < 4294967296) : toUInt32 (n : Int) = n := by
  unfold toUInt32; omega

theorem loopY_eq (pImage : IImage) (W H X : Nat) (hX : X < W) (hN : W * H < 2147483648) :
    ∀ (n Y0 fuel : Nat) (buf : ImageBuffer), Y0 + n = H → n < fuel →
      buf.cells.length = W * H →
      convertImage.loopY pImage W H X fuel Y0 buf
        = .ok (applyWrites ((List.range' Y0 n).map fun Y =>
            (X + Y * W, toOpenGLColor (pImage.getPixel X Y))) buf) := by
  intro n
  induction n with
  | zero =>
    intro Y0 fuel buf hY hfuel _
    obtain ⟨f, rfl⟩ : ∃ f, fuel = f + 1 := ⟨fuel - 1, by omega⟩
    have hYH : Y0 = H := by omega
    subst hYH
    simp [convertImage.loopY, applyWrites]
  | succ n ih =>
    intro Y0 fuel buf hY hfuel hlen
    obtain ⟨f, rfl⟩ : ∃ f, fuel = f + 1 := ⟨fuel - 1, by omega⟩
    have hY0 : Y0 < H := by omega
    have hidx := index_lt W H X Y0 hX hY0
    have hWle : W ≤ W * H := Nat.le_mul_of_pos_right W (by omega)
    have hHle : H ≤ W * H := Nat.le_mul_of_pos_left H (by omega)
    have b1 : Y0 * W < 2147483648 := by omega
    have b2 : X + Y0 * W < 2147483648 := by omega
    have b3 : Y0 + 1 < 2147483648 := by omega
    have b4 : X < 4294967296 := by omega
    have b5 : Y0 < 4294967296 := by omega
    have b6 : Y0 + 1 + n = H := by omega
    have b7 : n < f := by omega
    have e0 : (Y0 : Int) * (W : Int) = ((Y0 * W : Nat) : Int) := by push_cast; ring
    have e1 : toInt32 ((Y0 : Int) * (W : Int)) = ((Y0 * W : Nat) : Int) := by
      rw [e0]; exact toInt32_natCast _ b1
    have e2' : (X : Int) + ((Y0 * W : Nat) : Int) = ((X + Y0 * W : Nat) : Int) := by push_cast; ring
    have e2 : toInt32 ((X : Int) + ((Y0 * W : Nat) : Int)) = ((X + Y0 * W : Nat) : Int) := by
      rw [e2']; exact toInt32_natCast _ b2
    have e3' : (Y0 : Int) + 1 = ((Y0 + 1 : Nat) : Int) := by push_cast; ring
    have e3 : toInt32 ((Y0 : Int) + 1) = ((Y0 + 1 : Nat) : Int) := by
      rw [e3']; exact toInt32_natCast _ b3
    have e4 : toUInt32 (X : Int) = X := toUInt32_natCast X b4
    have e5 : toUInt32 (Y0 : Int) = Y0 := toUInt32_natCast Y0 b5
    have hlt : (Y0 : Int) < (H : Int) := by exact_mod_cast hY0
    have hin : (0 : Int) ≤ ((X + Y0 * W : Nat) : Int)
        ∧ ((X + Y0 * W : Nat) : Int) < (buf.cells.length : Int) := by
      constructor
      · exact Int.natCast_nonneg _
      · rw [hlen]; exact_mod_cast hidx
    unfold convertImage.loopY
    rw [if_pos hlt]
    simp only [e1, e2, e3, e4, e5]
    rw [if_pos hin, ih (Y0 + 1) f _ b6 b7 (by simpa using hlen)]
    rw [List.range'_succ, List.map_cons, applyWrites_cons]
    simp only [Int.toNat_ofNat]

theorem loopX_eq (pImage : IImage) (W H : Nat) (hW : W < 2147483648)
    (hN : W * H < 2147483648) :
    ∀ (n X0 fuel : Nat) (buf : ImageBuffer), X0 + n = W → n < fuel →
      buf.cells.length = W * H →
      convertImage.loopX pImage W H fuel X0 buf
        = .ok (applyWrites ((List.range' X0 n).flatMap fun X =>
            (List.range H).map fun Y => (X + Y * W, toOpenGLColor (pImage.getPixel X Y))) buf) := by
  intro n
  induction n with
  | zero =>
    intro X0 fuel buf hX hfuel _
    obtain ⟨f, rfl⟩ : ∃ f, fuel = f + 1 := ⟨fuel - 1, by omega⟩
    have hXW : X0 = W := by omega
    subst hXW
    simp [convertImage.loopX, applyWrites]
  | succ n ih =>
    intro X0 fuel buf hX hfuel hlen
    obtain ⟨f, rfl⟩ : ∃ f, fuel = f + 1 := ⟨fuel - 1, by omega⟩
    have hX0 : X0 < W := by omega
    have b3 : X0 + 1 < 2147483648 := by omega
    have b6 : X0 + 1 + n = W := by omega
    have b7 : n < f := by omega
    have hlt : (X0 : Int) < (W : Int) := by exact_mod_cast hX0
    have e3' : (X0 : Int) + 1 = ((X0 + 1 : Nat) : Int) := by push_cast; ring
    have e3 : toInt32 ((X0 : Int) + 1) = ((X0 + 1 : Nat) : Int) := by
      rw [e3']; exact toInt32_natCast _ b3
    have hy := loopY_eq pImage W H X0 hX0 hN H 0 ((H : Int).toNat + 1) buf (by omega)
      (by simp) hlen
    unfold convertImage.loopX
    rw [if_pos hlt]
    have h0 : ((0 : Nat) : Int) = 0 := rfl
    rw [h0] at hy
    rw [hy]
    simp only [e3]
    rw [ih (X0 + 1) f _ b6 b7 (by rw [applyWrites_length]; exact hlen)]
    rw [List.range'_succ, List.flatMap_cons, applyWrites_append, List.range_eq_range']

theorem convertImage_eq (pImage : IImage) (hW : pImage.Width < 2147483648)
    (hH : pImage.Height < 2147483648) (hN : pImage.Width * pImage.Height < 2147483648) :
    convertImage pImage
      = .ok (applyWrites (pixelWrites pImage pImage.Width pImage.Height)
          { cells := List.replicate (pImage.Width * pImage.Height) none, writes := [] }) := by
  have eW : toInt32 (pImage.Width : Int) = pImage.Width := toInt32_natCast _ hW
  have eH : toInt32 (pImage.Height : Int) = pImage.Height := toInt32_natCast _ hH
  have eN' : (pImage.Width : Int) * (pImage.Height : Int)
      = ((pImage.Width * pImage.Height : Nat) : Int) := by push_cast; ring
  have eN : toInt32 ((pImage.Width : Int) * (pImage.Height : Int))
      = ((pImage.Width * pImage.Height : Nat) : Int) := by
    rw [eN']; exact toInt32_natCast _ hN
  have hneg : ¬ (((pImage.Width * pImage.Height : Nat) : Int) < 0) :=
    not_lt.mpr (Int.natCast_nonneg _)
  unfold convertImage
  simp only [eW, eH, eN]
  rw [if_neg hneg]
  have hx := loopX_eq pImage pImage.Width pImage.Height hW hN pImage.Width 0
    ((pImage.Width : Int).toNat + 1)
    { cells := List.replicate (pImage.Width * pImage.Height) none, writes := [] }
    (by omega) (by simp) (by simp)
  have h0 : ((0 : Nat) : Int) = 0 := rfl
  rw [h0] at hx
  simp only [Int.toNat_ofNat] at hx ⊢
  rw [hx, pixelWrites]
  simp only [List.range_eq_range']

theorem index_inj (W X Y X' Y' : Nat) (hX : X < W) (hX' : X' < W)
    (he : X + Y * W = X' + Y' * W) : X = X' ∧ Y = Y' := by
  have hpos : 0 < W := by omega
  have hm : (X + Y * W) % W = (X' + Y' * W) % W := by rw [he]
  have hd : (X + Y * W) / W = (X' + Y' * W) / W := by rw [he]
  rw [Nat.add_mul_mod_self_right, Nat.add_mul_mod_self_right, Nat.mod_eq_of_lt hX,
    Nat.mod_eq_of_lt hX'] at hm
  rw [Nat.add_mul_div_right _ _ hpos, Nat.add_mul_div_right _ _ hpos, Nat.div_eq_of_lt hX,
    Nat.div_eq_of_lt hX'] at hd
  exact ⟨hm, by omega⟩

theorem index_surj (W H i : Nat) (hi : i < W * H) :
    ∃ X Y, X < W ∧ Y < H ∧ i = X + Y * W := by
  have hpos : 0 < W := by
    rcases Nat.eq_zero_or_pos W with h0 | h0
    · rw [h0, Nat.zero_mul] at hi; omega
    · exact h0
  refine ⟨i % W, i / W, Nat.mod_lt i hpos, ?_, ?_⟩
  · rw [Nat.div_lt_iff_lt_mul hpos, Nat.mul_comm]; exact hi
  · have h := Nat.mod_add_div i W
    rw [Nat.mul_comm] at h
    exact h.symm

theorem pixelWrites_indices (pImage : IImage) (W H : Nat) :
    (pixelWrites pImage W H).map Prod.fst
      = (List.product (List.range W) (List.range H)).map (fun p => p.1 + p.2 * W) := by
  simp [pixelWrites, List.product.eq_1, List.map_flatMap, Function.comp_def]

theorem pixelWrites_nodup (pImage : IImage) (W H : Nat) :
    ((pixelWrites pImage W H).map Prod.fst).Nodup := by
  rw [pixelWrites_indices]
  apply List.Nodup.map_on
  · rintro ⟨X, Y⟩ hp ⟨X', Y'⟩ hp' he
    have h1 := (List.mem_product.mp hp).1
    have h2 := (List.mem_product.mp hp').1
    rw [List.mem_range] at h1 h2
    obtain ⟨hx, hy⟩ := index_inj W X Y X' Y' h1 h2 he
    simp [hx, hy]
  · exact List.Nodup.product (List.nodup_range W) (List.nodup_range H)

theorem pixelWrites_mem (pImage : IImage) (W H X Y : Nat) (hX : X < W) (hY : Y < H) :
    (X + Y * W, toOpenGLColor (pImage.getPixel X Y)) ∈ pixelWrites pImage W H := by
  unfold pixelWrites
  rw [List.mem_flatMap]
  exact ⟨X, List.mem_range.mpr hX, List.mem_map.mpr ⟨Y, List.mem_range.mpr hY, rfl⟩⟩

theorem pixelWrites_length (pImage : IImage) (W H : Nat) :
    ((pixelWrites pImage W H).map Prod.fst).length = W * H := by
  rw [pixelWrites_indices, List.length_map]
  exact (List.length_product (List.range W) (List.range H)).trans (by simp)

theorem applyWrites_get_of_not_mem (ws : List (Nat × RGBA)) (i : Nat) :
    ∀ buf : ImageBuffer, i ∉ ws.map Prod.fst → (applyWrites ws buf).cells[i]? = buf.cells[i]? := by
  induction ws with
  | nil => intro buf _; rfl
  | cons p ws ih =>
    intro buf hni
    rw [List.map_cons, List.mem_cons, not_or] at hni
    rw [applyWrites_cons, ih _ hni.2]
    exact List.getElem?_set_ne (fun h => hni.1 h.symm)

theorem applyWrites_get (ws : List (Nat × RGBA)) (i : Nat) (v : RGBA) :
    ∀ buf : ImageBuffer, (ws.map Prod.fst).Nodup → (i, v) ∈ ws → i < buf.cells.length →
      (applyWrites ws buf).cells[i]? = some (some v) := by
  induction ws with
  | nil => intro buf _ hm _; cases hm
  | cons p ws ih =>
    intro buf hnd hm hi
    rw [List.map_cons, List.nodup_cons] at hnd
    rw [applyWrites_cons]
    rcases List.mem_cons.mp hm with hp | hrest
    · subst hp
      rw [applyWrites_get_of_not_mem ws _ _ hnd.1]
      exact List.getElem?_set_self hi
    · exact ih _ hnd.2 hrest (by simpa using hi)

/-- C9 (as amended): for every image whose width `W` and height `H` are
non-negative as `int`s and whose product `W * H` fits into an `int`, the
conversion completes with a buffer of `W * H` cells; for every pixel `(X, Y)`
the index `X + Y * W` lies below `W * H` and that cell holds the RGBA
conversion of the pixel; the map from pixels to indices is one-to-one and onto
`[0, W * H)`; and every cell is written exactly once. -/
theorem convertImage_writes_every_cell_once (pImage : IImage)
    (hW : pImage.Width < 2147483648) (hH : pImage.Height < 2147483648)
    (hN : pImage.Width * pImage.Height < 2147483648) :
    ∃ buf : ImageBuffer, convertImage pImage = .ok buf
      ∧ buf.cells.length = pImage.Width * pImage.Height
      ∧ (∀ X Y, X < pImage.Width → Y < pImage.Height →
          X + Y * pImage.Width < pImage.Width * pImage.Height
          ∧ buf.cells[X + Y * pImage.Width]? = some (some (toOpenGLColor (pImage.getPixel X Y))))
      ∧ (∀ X Y X' Y', X < pImage.Width → X' < pImage.Width →
          X + Y * pImage.Width = X' + Y' * pImage.Width → X = X' ∧ Y = Y')
      ∧ (∀ i, i < pImage.Width * pImage.Height →
          ∃ X Y, X < pImage.Width ∧ Y < pImage.Height ∧ i = X + Y * pImage.Width)
      ∧ buf.writes.length = pImage.Width * pImage.Height
      ∧ (∀ i, i < pImage.Width * pImage.Height → buf.writes.count i = 1) := by
  refine ⟨_, convertImage_eq pImage hW hH hN, ?_, ?_, ?_, ?_, ?_, ?_⟩
  · rw [applyWrites_length]; simp
  · intro X Y hX hY
    have hidx := index_lt _ _ X Y hX hY
    exact ⟨hidx, applyWrites_get _ _ _ _ (pixelWrites_nodup _ _ _)
      (pixelWrites_mem pImage _ _ X Y hX hY) (by simpa using hidx)⟩
  · intro X Y X' Y' hX hX' he
    exact index_inj _ X Y X' Y' hX hX' he
  · intro i hi
    exact index_surj _ _ i hi
  · rw [applyWrites_writes, List.nil_append, pixelWrites_length]
  · intro i hi
    rw [applyWrites_writes, List.nil_append]
    apply List.count_eq_one_of_mem (pixelWrites_nodup _ _ _)
    obtain ⟨X, Y, hX, hY, rfl⟩ := index_surj _ _ i hi
    exact List.mem_map.mpr ⟨_, pixelWrites_mem pImage _ _ X Y hX hY, rfl⟩

/-- C9 at a concrete input: the 2 x 3 example image. -/
theorem convertImage_writes_every_cell_once_witness :
    ∃ buf : ImageBuffer, convertImage smallImage = .ok buf
      ∧ buf.cells.length = smallImage.Width * smallImage.Height
      ∧ (∀ X Y, X < smallImage.Width → Y < smallImage.Height →
          X + Y * smallImage.Width < smallImage.Width * smallImage.Height
          ∧ buf.cells[X + Y * smallImage.Width]?
              = some (some (toOpenGLColor (smallImage.getPixel X Y))))
      ∧ (∀ X Y X' Y', X < smallImage.Width → X' < smallImage.Width →
          X + Y * smallImage.Width = X' + Y' * smallImage.Width → X = X' ∧ Y = Y')
      ∧ (∀ i, i < smallImage.Width * smallImage.Height →
          ∃ X Y, X < smallImage.Width ∧ Y < smallImage.Height ∧ i = X + Y * smallImage.Width)
      ∧ buf.writes.length = smallImage.Width * smallImage.Height
      ∧ (∀ i, i < smallImage.Width * smallImage.Height → buf.writes.count i = 1) :=
  convertImage_writes_every_cell_once smallImage (by decide) (by decide) (by decide)

/-- C9 (as stated) fails: width 65536 and height 65536 are non-negative, but
their product taken in `int` is 0, so the buffer has no cell and the store of
pixel (0, 0) in cell 0 falls outside it. -/
theorem convertImage_counterexample :
    toInt32 (toInt32 hugeImage.Width * toInt32 hugeImage.Height) = 0
    ∧ convertImage hugeImage = .error .outOfBounds := by
  refine ⟨by decide, rfl⟩

theorem createFontTextureWithHandle_bound (h : Host) (w : World)
    (hb : w.gl.boundTexture2D < 4294967296) :
    (createFontTextureWithHandle h w).2.gl.boundTexture2D = w.gl.boundTexture2D := by
  simp [createFontTextureWithHandle, World.getTextureBinding2D, World.genTexture, World.issue,
    GLCall.exec, GLState.bindTexture2D, toUInt32_toInt32 _ hb]

theorem upload_bound (h : Host) (Width Height : Int) (buf : ImageBuffer) (w : World)
    (hb : w.gl.boundTexture2D < 4294967296) :
    (createTextureFromImageInternal.upload h Width Height buf w).2.gl.boundTexture2D
      = w.gl.boundTexture2D := by
  simp [createTextureFromImageInternal.upload, World.getTextureBinding2D, World.genTexture,
    World.issue, GLCall.exec, GLState.bindTexture2D, toUInt32_toInt32 _ hb]

theorem createTextureFromImageInternal_bound (h : Host) (pImage : IImage) (w : World)
    (hb : w.gl.boundTexture2D < 4294967296) (r : ImTextureID × World)
    (hr : createTextureFromImageInternal h pImage w = .ok r) :
    r.2.gl.boundTexture2D = w.gl.boundTexture2D := by
  have hdef : createTextureFromImageInternal h pImage w
      = (convertImage pImage).map fun pImageData =>
          createTextureFromImageInternal.upload h (toInt32 pImage.Width)
            (toInt32 pImage.Height) pImageData w := rfl
  rw [hdef] at hr
  generalize convertImage pImage = c at hr
  cases c with
  | error e => cases hr
  | ok buf =>
    have hr' : createTextureFromImageInternal.upload h (toInt32 pImage.Width)
        (toInt32 pImage.Height) buf w = r := by
      injection hr
    rw [← hr']
    exact upload_bound h _ _ buf w hb

theorem createTextureFromImageInternal_returns (h : Host) (pImage : IImage) (w : World)
    (hW : pImage.Width < 2147483648) (hH : pImage.Height < 2147483648)
    (hN : pImage.Width * pImage.Height < 2147483648) :
    ∃ r, createTextureFromImageInternal h pImage w = .ok r := by
  have hdef : createTextureFromImageInternal h pImage w
      = (convertImage pImage).map fun pImageData =>
          createTextureFromImageInternal.upload h (toInt32 pImage.Width)
            (toInt32 pImage.Height) pImageData w := rfl
  rw [hdef, convertImage_eq pImage hW hH hN]
  exact ⟨_, rfl⟩

/-- C7: for every context whose bound 2D texture is a `GLuint`, the 2D texture
bound after `createFontTextureWithHandle` equals the one bound before the
call; the same holds for `createTextureFromImageInternal` for every image,
whenever it returns, and it does return for every image whose width, height
and pixel count fit into an `int`. -/
theorem create_restores_bound_texture (h : Host) (w : World)
    (hb : w.gl.boundTexture2D < 4294967296) :
    (createFontTextureWithHandle h w).2.gl.boundTexture2D = w.gl.boundTexture2D
    ∧ (∀ (pImage : IImage) (r : ImTextureID × World),
        createTextureFromImageInternal h pImage w = .ok r →
          r.2.gl.boundTexture2D = w.gl.boundTexture2D)
    ∧ (∀ pImage : IImage, pImage.Width < 2147483648 → pImage.Height < 2147483648 →
        pImage.Width * pImage.Height < 2147483648 →
          ∃ r, createTextureFromImageInternal h pImage w = .ok r) :=
  ⟨createFontTextureWithHandle_bound h w hb,
   fun pImage r hr => createTextureFromImageInternal_bound h pImage w hb r hr,
   fun pImage hW hH hN => createTextureFromImageInternal_returns h pImage w hW hH hN⟩

/-- C7 at a concrete input: the example context, where texture 7 is bound. -/
theorem create_restores_bound_texture_witness :
    (createFontTextureWithHandle exampleHost exampleWorld).2.gl.boundTexture2D
        = exampleWorld.gl.boundTexture2D
    ∧ (∀ (pImage : IImage) (r : ImTextureID × World),
        createTextureFromImageInternal exampleHost pImage exampleWorld = .ok r →
          r.2.gl.boundTexture2D = exampleWorld.gl.boundTexture2D)
    ∧ (∀ pImage : IImage, pImage.Width < 2147483648 → pImage.Height < 2147483648 →
        pImage.Width * pImage.Height < 2147483648 →
          ∃ r, createTextureFromImageInternal exampleHost pImage exampleWorld = .ok r) :=
  create_restores_bound_texture exampleHost exampleWorld (by decide)

theorem setError_inFrame (g0 g : GLState) (e : GLenum) (hf : InFrame g0 g) :
    InFrame g0 (g.setError e) := by
  unfold GLState.setError
  split
  · exact hf
  · exact hf

theorem setCurrentStack_top_inFrame (g0 g : GLState) (m : Mat4) (hf : InFrame g0 g) :
    InFrame g0 (g.setCurrentStack { g.currentStack with top := m }) := by
  obtain ⟨h1, h2, h3, h4, h5⟩ := hf
  unfold GLState.setCurrentStack GLState.currentStack
  cases hm : g.matrixMode <;> exact ⟨h1, h2, h3, h4, h5⟩

theorem exec_inFrame (h : Host) (g0 g : GLState) (c : GLCall) (hc : c.keepsStacks = true)
    (hf : InFrame g0 g) : InFrame g0 (c.exec h g) := by
  cases c with
  | glPushAttrib _ => cases hc
  | glPopAttrib => cases hc
  | glPushMatrix => cases hc
  | glPopMatrix => cases hc
  | UserCallback _ _ _ => cases hc
  | glLoadIdentity => exact setCurrentStack_top_inFrame g0 g 1 hf
  | glOrtho l r b t n f =>
    show InFrame g0 (g.ortho l r b t n f)
    unfold GLState.ortho
    split
    · split
      · exact setError_inFrame g0 g _ hf
      · exact setCurrentStack_top_inFrame g0 g _ hf
    · exact setCurrentStack_top_inFrame g0 g _ hf
  | glScissor x y w z =>
    show InFrame g0 (g.scissor x y w z)
    unfold GLState.scissor
    split
    · exact setError_inFrame g0 g _ hf
    · exact hf
  | glBindTexture target name =>
    show InFrame g0 (if target = GL_TEXTURE_2D then g.bindTexture2D name else g)
    split
    · exact hf
    · exact hf
  | glEnable cap => cases cap <;> exact hf
  | glDisable cap => cases cap <;> exact hf
  | glEnableClientState a => cases a <;> exact hf
  | glDisableClientState a => cases a <;> exact hf
  | _ => exact hf

theorem issue_inFrame (h : Host) (g0 : GLState) (w : World) (c : GLCall)
    (hc : c.keepsStacks = true) (hf : InFrame g0 w.gl) : InFrame g0 (w.issue h c).gl :=
  exec_inFrame h g0 w.gl c hc hf

theorem loop_inFrame (h : Host) (list : ImDrawList) (fbh : CFloat) (g0 : GLState) :
    ∀ (cmds : List ImDrawCmd) (first : Int) (w : World),
      (∀ c ∈ cmds, c.UserCallback = none) → InFrame g0 w.gl →
      InFrame g0 (drawCommandList.loop h list fbh cmds first w).gl := by
  intro cmds
  induction cmds with
  | nil => intro first w _ hf; exact hf
  | cons c cs ih =>
    intro first w hcb hf
    unfold drawCommandList.loop
    apply ih _ _ (fun c' hc' => hcb c' (List.mem_cons_of_mem c hc'))
    rw [hcb c (List.mem_cons_self c cs)]
    exact issue_inFrame h g0 _ _ rfl (issue_inFrame h g0 _ _ rfl (issue_inFrame h g0 _ _ rfl hf))

theorem drawCommandList_inFrame (h : Host) (list : ImDrawList) (g0 : GLState) (w : World)
    (hcb : ∀ c ∈ list.CmdBuffer, c.UserCallback = none) (hf : InFrame g0 w.gl) :
    InFrame g0 (drawCommandList h list w).gl := by
  unfold drawCommandList
  apply loop_inFrame h list _ g0 _ _ _ hcb
  exact issue_inFrame h g0 _ _ rfl (issue_inFrame h g0 _ _ rfl (issue_inFrame h g0 _ _ rfl hf))

theorem lists_inFrame (h : Host) (g0 : GLState) :
    ∀ (lists : List ImDrawList) (w : World),
      (∀ l ∈ lists, ∀ c ∈ l.CmdBuffer, c.UserCallback = none) → InFrame g0 w.gl →
      InFrame g0 (drawGUIList.loop h lists w).gl := by
  intro lists
  induction lists with
  | nil => intro w _ hf; exact hf
  | cons l ls ih =>
    intro w hcb hf
    unfold drawGUIList.loop
    exact ih _ (fun l' hl' => hcb l' (List.mem_cons_of_mem l hl'))
      (drawCommandList_inFrame h l g0 w (hcb l (List.mem_cons_self l ls)) hf)

theorem setup_inFrame (h : Host) (g0 : GLState) (w : World) (hf : InFrame g0 w.gl) :
    InFrame g0 (drawGUIList.setup h w).gl := by
  unfold drawGUIList.setup
  exact issue_inFrame h g0 _ _ rfl (issue_inFrame h g0 _ _ rfl (issue_inFrame h g0 _ _ rfl
    (issue_inFrame h g0 _ _ rfl (issue_inFrame h g0 _ _ rfl (issue_inFrame h g0 _ _ rfl
    (issue_inFrame h g0 _ _ rfl (issue_inFrame h g0 _ _ rfl (issue_inFrame h g0 _ _ rfl
    (issue_inFrame h g0 _ _ rfl (issue_inFrame h g0 _ _ rfl (issue_inFrame h g0 _ _ rfl
    (issue_inFrame h g0 _ _ rfl (issue_inFrame h g0 _ _ rfl hf)))))))))))))

theorem drawGUIList_eq (h : Host) (pDrawData : ImDrawData) (w : World) :
    drawGUIList h pDrawData w
      = (pDrawData.ScaleClipRects w.gui.DisplayFramebufferScale,
         COpenGLState.dtor h (COpenGLState.ctor h w).1
          (((drawGUIList.loop h (pDrawData.ScaleClipRects w.gui.DisplayFramebufferScale).CmdLists
              (drawGUIList.setup h (COpenGLState.ctor h w).2)).issue h
                (.glDisableClientState .GL_COLOR_ARRAY)).issue h
                (.glDisableClientState .GL_TEXTURE_COORD_ARRAY) |>.issue h
                (.glDisableClientState .GL_VERTEX_ARRAY))) := rfl

theorem ctor_fst (h : Host) (w : World) :
    (COpenGLState.ctor h w).1 = toInt32 w.gl.boundTexture2D := rfl

theorem ctor_inFrame (h : Host) (w : World)
    (hattr : w.gl.attribStack.length < w.gl.maxAttribStackDepth)
    (hproj : w.gl.projection.below.length + 1 < w.gl.projection.maxDepth)
    (hmv : w.gl.modelview.below.length + 1 < w.gl.modelview.maxDepth) :
    InFrame w.gl (COpenGLState.ctor h w).2.gl := by
  simp [COpenGLState.ctor, World.getTextureBinding2D, World.issue, GLCall.exec,
    GLState.pushAttrib, GLState.pushMatrix, GLState.currentStack, GLState.setCurrentStack,
    hattr, hproj, hmv, InFrame]

theorem dtor_restores (h : Host) (g0 : GLState) (m : Int) (w : World) (hf : InFrame g0 w.gl) :
    (COpenGLState.dtor h m w).gl.blend = g0.blend
    ∧ (COpenGLState.dtor h m w).gl.cullFace = g0.cullFace
    ∧ (COpenGLState.dtor h m w).gl.depthTest = g0.depthTest
    ∧ (COpenGLState.dtor h m w).gl.scissorTest = g0.scissorTest
    ∧ (COpenGLState.dtor h m w).gl.texture2D = g0.texture2D
    ∧ (COpenGLState.dtor h m w).gl.blendSrc = g0.blendSrc
    ∧ (COpenGLState.dtor h m w).gl.blendDst = g0.blendDst
    ∧ (COpenGLState.dtor h m w).gl.matrixMode = g0.matrixMode
    ∧ (COpenGLState.dtor h m w).gl.boundTexture2D = toUInt32 m
    ∧ (COpenGLState.dtor h m w).gl.projection = g0.projection
    ∧ (COpenGLState.dtor h m w).gl.modelview = g0.modelview
    ∧ (COpenGLState.dtor h m w).gl.attribStack = g0.attribStack := by
  obtain ⟨h1, h2, h3, h4, h5⟩ := hf
  have e1 : (GL_ENABLE_BIT ||| GL_COLOR_BUFFER_BIT ||| GL_TRANSFORM_BIT) &&& GL_ENABLE_BIT ≠ 0 := by
    decide
  have e2 : (GL_ENABLE_BIT ||| GL_COLOR_BUFFER_BIT ||| GL_TRANSFORM_BIT) &&& GL_COLOR_BUFFER_BIT ≠ 0 := by
    decide
  have e3 : (GL_ENABLE_BIT ||| GL_COLOR_BUFFER_BIT ||| GL_TRANSFORM_BIT) &&& GL_TRANSFORM_BIT ≠ 0 := by
    decide
  simp only [COpenGLState.dtor, World.issue, GLCall.exec, GLState.popMatrix, GLState.popAttrib,
    GLState.currentStack, GLState.setCurrentStack, GLState.bindTexture2D, h1, h2, h3, h4, h5,
    e1, e2, e3, if_true, decide_True, Bool.or_self, ne_eq, not_false_eq_true, and_self,
    and_true, true_and]

theorem scaleClipRects_noCallbacks (d : ImDrawData) (scale : ImVec2) (hd : d.noCallbacks) :
    ∀ l ∈ (d.ScaleClipRects scale).CmdLists, ∀ c ∈ l.CmdBuffer, c.UserCallback = none := by
  intro l hl c hc
  simp only [ImDrawData.ScaleClipRects, List.mem_map] at hl
  obtain ⟨l0, hl0, rfl⟩ := hl
  simp only [List.mem_map] at hc
  obtain ⟨c0, hc0, rfl⟩ := hc
  exact hd l0 hl0 c0 hc0

/-- C1: for every draw data, with any number of command lists, none of whose
commands carries a user callback, and every context with room for one more
entry on the attribute stack and on the projection and model-view stacks (and
whose bound 2D texture is a `GLuint`), the context after `drawGUIList` equals
the context before the call in the blend, cull-face, depth-test and
scissor-test enable bits, the bound 2D texture, the projection and model-view
stacks (current matrix and depth) and the attribute stack, and also in the 2D
texturing bit, the blend function and the matrix mode. -/
theorem drawGUIList_restores_state (h : Host) (pDrawData : ImDrawData) (w : World)
    (hcb : pDrawData.noCallbacks)
    (hattr : w.gl.attribStack.length < w.gl.maxAttribStackDepth)
    (hproj : w.gl.projection.below.length + 1 < w.gl.projection.maxDepth)
    (hmv : w.gl.modelview.below.length + 1 < w.gl.modelview.maxDepth)
    (htex : w.gl.boundTexture2D < 4294967296) :
    (drawGUIList h pDrawData w).2.gl.blend = w.gl.blend
    ∧ (drawGUIList h pDrawData w).2.gl.cullFace = w.gl.cullFace
    ∧ (drawGUIList h pDrawData w).2.gl.depthTest = w.gl.depthTest
    ∧ (drawGUIList h pDrawData w).2.gl.scissorTest = w.gl.scissorTest
    ∧ (drawGUIList h pDrawData w).2.gl.texture2D = w.gl.texture2D
    ∧ (drawGUIList h pDrawData w).2.gl.blendSrc = w.gl.blendSrc
    ∧ (drawGUIList h pDrawData w).2.gl.blendDst = w.gl.blendDst
    ∧ (drawGUIList h pDrawData w).2.gl.matrixMode = w.gl.matrixMode
    ∧ (drawGUIList h pDrawData w).2.gl.boundTexture2D = w.gl.boundTexture2D
    ∧ (drawGUIList h pDrawData w).2.gl.projection = w.gl.projection
    ∧ (drawGUIList h pDrawData w).2.gl.modelview = w.gl.modelview
    ∧ (drawGUIList h pDrawData w).2.gl.attribStack = w.gl.attribStack := by
  rw [drawGUIList_eq]
  have hframe : InFrame w.gl
      (((drawGUIList.loop h (pDrawData.ScaleClipRects w.gui.DisplayFramebufferScale).CmdLists
          (drawGUIList.setup h (COpenGLState.ctor h w).2)).issue h
            (.glDisableClientState .GL_COLOR_ARRAY)).issue h
            (.glDisableClientState .GL_TEXTURE_COORD_ARRAY) |>.issue h
            (.glDisableClientState .GL_VERTEX_ARRAY)).gl :=
    issue_inFrame h _ _ _ rfl (issue_inFrame h _ _ _ rfl (issue_inFrame h _ _ _ rfl
      (lists_inFrame h _ _ _ (scaleClipRects_noCallbacks _ _ hcb)
        (setup_inFrame h _ _ (ctor_inFrame h w hattr hproj hmv)))))
  have hd := dtor_restores h w.gl (COpenGLState.ctor h w).1 _ hframe
  rw [ctor_fst, toUInt32_toInt32 _ htex] at hd
  exact hd

/-- C1 at a concrete input: the example context and a frame of two command
lists. -/
theorem drawGUIList_restores_state_witness :
    (drawGUIList exampleHost exampleDrawData exampleWorld).2.gl.blend = exampleWorld.gl.blend
    ∧ (drawGUIList exampleHost exampleDrawData exampleWorld).2.gl.cullFace
        = exampleWorld.gl.cullFace
    ∧ (drawGUIList exampleHost exampleDrawData exampleWorld).2.gl.depthTest
        = exampleWorld.gl.depthTest
    ∧ (drawGUIList exampleHost exampleDrawData exampleWorld).2.gl.scissorTest
        = exampleWorld.gl.scissorTest
    ∧ (drawGUIList exampleHost exampleDrawData exampleWorld).2.gl.texture2D
        = exampleWorld.gl.texture2D
    ∧ (drawGUIList exampleHost exampleDrawData exampleWorld).2.gl.blendSrc
        = exampleWorld.gl.blendSrc
    ∧ (drawGUIList exampleHost exampleDrawData exampleWorld).2.gl.blendDst
        = exampleWorld.gl.blendDst
    ∧ (drawGUIList exampleHost exampleDrawData exampleWorld).2.gl.matrixMode
        = exampleWorld.gl.matrixMode
    ∧ (drawGUIList exampleHost exampleDrawData exampleWorld).2.gl.boundTexture2D
        = exampleWorld.gl.boundTexture2D
    ∧ (drawGUIList exampleHost exampleDrawData exampleWorld).2.gl.projection
        = exampleWorld.gl.projection
    ∧ (drawGUIList exampleHost exampleDrawData exampleWorld).2.gl.modelview
        = exampleWorld.gl.modelview
    ∧ (drawGUIList exampleHost exampleDrawData exampleWorld).2.gl.attribStack
        = exampleWorld.gl.attribStack :=
  drawGUIList_restores_state exampleHost exampleDrawData exampleWorld
    (by simp [ImDrawData.noCallbacks, exampleDrawData, exampleList, exampleDrawCmd])
    (by decide) (by decide) (by decide) (by decide)

theorem loop_gui (h : Host) (list : ImDrawList) (fbh : CFloat) :
    ∀ (cmds : List ImDrawCmd) (first : Int) (w : World),
      (drawCommandList.loop h list fbh cmds first w).gui = w.gui := by
  intro cmds
  induction cmds with
  | nil => intro first w; rfl
  | cons c cs ih =>
    intro first w
    unfold drawCommandList.loop
    rw [ih]
    cases c.UserCallback <;> rfl

theorem drawCommandList_gui (h : Host) (list : ImDrawList) (w : World) :
    (drawCommandList h list w).gui = w.gui := by
  unfold drawCommandList
  rw [loop_gui]
  rfl

theorem lists_gui (h : Host) :
    ∀ (lists : List ImDrawList) (w : World), (drawGUIList.loop h lists w).gui = w.gui := by
  intro lists
  induction lists with
  | nil => intro w; rfl
  | cons l ls ih => intro w; unfold drawGUIList.loop; rw [ih, drawCommandList_gui]

theorem lists_log (h : Host) :
    ∀ (lists : List ImDrawList) (w : World),
      (drawGUIList.loop h lists w).log
        = w.log ++ lists.flatMap
            (listCalls h (w.gui.DisplaySize.y * w.gui.DisplayFramebufferScale.y)) := by
  intro lists
  induction lists with
  | nil => intro w; simp [drawGUIList.loop]
  | cons l ls ih =>
    intro w
    unfold drawGUIList.loop
    rw [ih, drawCommandList_gui, drawCommandList_log, List.flatMap_cons]
    simp [listCalls, List.append_assoc]

theorem ctor_log (h : Host) (w : World) :
    (COpenGLState.ctor h w).2.log = w.log ++ guardOpenCalls w.gl.boundTexture2D := by
  simp [COpenGLState.ctor, World.getTextureBinding2D, World.issue, guardOpenCalls]

theorem ctor_gui (h : Host) (w : World) : (COpenGLState.ctor h w).2.gui = w.gui := rfl

theorem setup_log (h : Host) (w : World) :
    (drawGUIList.setup h w).log
      = w.log ++ setupCalls w.gui.DisplaySize.x w.gui.DisplaySize.y := by
  simp [drawGUIList.setup, World.issue, setupCalls]

theorem setup_gui (h : Host) (w : World) : (drawGUIList.setup h w).gui = w.gui := rfl

theorem drawGUIList_log (h : Host) (pDrawData : ImDrawData) (w : World) :
    (drawGUIList h pDrawData w).2.log
      = w.log ++ (guardOpenCalls w.gl.boundTexture2D
        ++ setupCalls w.gui.DisplaySize.x w.gui.DisplaySize.y
        ++ (pDrawData.ScaleClipRects w.gui.DisplayFramebufferScale).CmdLists.flatMap
            (listCalls h (w.gui.DisplaySize.y * w.gui.DisplayFramebufferScale.y))
        ++ guardCloseCalls w.gl.boundTexture2D) := by
  rw [drawGUIList_eq]
  simp only [COpenGLState.dtor, issue_log, lists_log, setup_log, setup_gui, ctor_log, ctor_gui,
    ctor_fst, guardCloseCalls, List.append_assoc, List.singleton_append, List.cons_append,
    List.nil_append]

theorem setup_projection (h : Host) (w : World) :
    (drawGUIList.setup h w).gl.projection.top
      = match w.gui.DisplaySize.x, w.gui.DisplaySize.y with
        | .finite W, .finite H =>
          if (0 : ℚ) = W ∨ H = 0 then 1 else orthoMatrix 0 W H 0 (-1) 1
        | _, _ => w.gl.nonFiniteOrtho 1 := by
  have hne : ¬ ((-1 : ℚ) = 1) := by norm_num
  cases hx : w.gui.DisplaySize.x <;> cases hy : w.gui.DisplaySize.y
  all_goals
    simp [drawGUIList.setup, World.issue, GLCall.exec, GLState.setCapability,
      GLState.setClientArray, GLState.loadIdentity, GLState.ortho, GLState.currentStack,
      GLState.setCurrentStack, GLState.setError, hx, hy, hne]
  split_ifs <;> rfl

theorem ctor_nonFiniteOrtho (h : Host) (w : World) :
    (COpenGLState.ctor h w).2.gl.nonFiniteOrtho = w.gl.nonFiniteOrtho := by
  simp only [COpenGLState.ctor, World.getTextureBinding2D, World.issue, GLCall.exec,
    GLState.pushAttrib, GLState.pushMatrix, GLState.currentStack, GLState.setCurrentStack,
    GLState.setError]
  split_ifs <;> rfl

theorem orthoExtents_append (a b : List GLCall) :
    orthoExtents (a ++ b) = orthoExtents a ++ orthoExtents b := by
  simp [orthoExtents, List.filterMap_append]

theorem orthoExtents_commandCalls (h : Host) (list : ImDrawList) (fbh : CFloat) (cmd : ImDrawCmd)
    (first : Int) : orthoExtents (commandCalls h list fbh cmd first) = [] := by
  cases hcb : cmd.UserCallback <;> simp [commandCalls, hcb, orthoExtents]

theorem orthoExtents_flatten_zipWith (h : Host) (list : ImDrawList) (fbh : CFloat) :
    ∀ (cmds : List ImDrawCmd) (offs : List Int),
      orthoExtents (List.zipWith (commandCalls h list fbh) cmds offs).flatten = [] := by
  intro cmds
  induction cmds with
  | nil => intro offs; simp [orthoExtents]
  | cons c cs ih =>
    intro offs
    cases offs with
    | nil => simp [orthoExtents]
    | cons o os =>
      rw [List.zipWith_cons_cons, List.flatten_cons, orthoExtents_append,
        orthoExtents_commandCalls, ih, List.nil_append]

theorem orthoExtents_listCalls (h : Host) (fbh : CFloat) (list : ImDrawList) :
    orthoExtents (listCalls h fbh list) = [] := by
  unfold listCalls
  rw [orthoExtents_append, orthoExtents_flatten_zipWith]
  rfl

theorem orthoExtents_lists (h : Host) (fbh : CFloat) (lists : List ImDrawList) :
    orthoExtents (lists.flatMap (listCalls h fbh)) = [] := by
  induction lists with
  | nil => rfl
  | cons l ls ih => rw [List.flatMap_cons, orthoExtents_append, orthoExtents_listCalls, ih]; rfl

theorem drawGUIList_issued (h : Host) (pDrawData : ImDrawData) (w : World) :
    issuedCalls w (drawGUIList h pDrawData w).2
      = guardOpenCalls w.gl.boundTexture2D
        ++ setupCalls w.gui.DisplaySize.x w.gui.DisplaySize.y
        ++ (pDrawData.ScaleClipRects w.gui.DisplayFramebufferScale).CmdLists.flatMap
            (listCalls h (w.gui.DisplaySize.y * w.gui.DisplayFramebufferScale.y))
        ++ guardCloseCalls w.gl.boundTexture2D :=
  issuedCalls_eq _ _ _ (drawGUIList_log h pDrawData w)

theorem drawGUIList_orthoExtents (h : Host) (pDrawData : ImDrawData) (w : World) :
    orthoExtents (issuedCalls w (drawGUIList h pDrawData w).2)
      = [(.finite 0, w.gui.DisplaySize.x, w.gui.DisplaySize.y, .finite 0)] := by
  rw [drawGUIList_issued, orthoExtents_append, orthoExtents_append, orthoExtents_append,
    orthoExtents_lists]
  rfl

/-- C8 (as amended): in `drawGUIList` the clip rectangles of every command
list are scaled by the framebuffer scale `(sx, sy)` before any list is drawn,
and the lists are drawn against the framebuffer height `H * sy`; the one
projection loaded for the frame is `glOrtho(0, W, H, 0, -1, 1)` on the identity,
which maps the logical display extent, x from 0 to `W` and y from `H` (bottom)
down to 0 (top), to clip space: the projection is not scaled by the
framebuffer scale. -/
theorem drawGUIList_projection_and_clip_units (h : Host) (pDrawData : ImDrawData) (w : World) :
    (drawGUIList h pDrawData w).1 = pDrawData.ScaleClipRects w.gui.DisplayFramebufferScale
    ∧ issuedCalls w (drawGUIList h pDrawData w).2
        = guardOpenCalls w.gl.boundTexture2D
          ++ setupCalls w.gui.DisplaySize.x w.gui.DisplaySize.y
          ++ (pDrawData.ScaleClipRects w.gui.DisplayFramebufferScale).CmdLists.flatMap
              (listCalls h (w.gui.DisplaySize.y * w.gui.DisplayFramebufferScale.y))
          ++ guardCloseCalls w.gl.boundTexture2D
    ∧ orthoExtents (issuedCalls w (drawGUIList h pDrawData w).2)
        = [(.finite 0, w.gui.DisplaySize.x, w.gui.DisplaySize.y, .finite 0)]
    ∧ (drawGUIList.setup h (COpenGLState.ctor h w).2).gl.projection.top
        = match w.gui.DisplaySize.x, w.gui.DisplaySize.y with
          | .finite W, .finite H =>
            if (0 : ℚ) = W ∨ H = 0 then 1 else orthoMatrix 0 W H 0 (-1) 1
          | _, _ => w.gl.nonFiniteOrtho 1 :=
  ⟨rfl, drawGUIList_issued h pDrawData w, drawGUIList_orthoExtents h pDrawData w, by
    have hp := setup_projection h (COpenGLState.ctor h w).2
    rw [ctor_gui, ctor_nonFiniteOrtho] at hp
    exact hp⟩

/-- C8 (as stated) fails: on an 800x600 display with framebuffer scale 2 the
projection loaded has the extent 800x600, not the extent 1600x1200 of the
framebuffer, while the scissor rectangle of the command with clip rectangle
(10, 20, 110, 70) is given in framebuffer pixels, (20, 1060, 200, 100). -/
theorem drawGUIList_projection_counterexample :
    orthoExtents (issuedCalls exampleWorldHiDpi
        (drawGUIList exampleHost exampleSingleDrawData exampleWorldHiDpi).2)
      = [(.finite 0, .finite 800, .finite 600, .finite 0)]
    ∧ (exampleWorldHiDpi.gui.DisplaySize.x * exampleWorldHiDpi.gui.DisplayFramebufferScale.x,
        exampleWorldHiDpi.gui.DisplaySize.y * exampleWorldHiDpi.gui.DisplayFramebufferScale.y)
      = (.finite 1600, .finite 1200)
    ∧ scissorBoxes (issuedCalls exampleWorldHiDpi
        (drawGUIList exampleHost exampleSingleDrawData exampleWorldHiDpi).2)
      = [(20, 1060, 200, 100)] := by
  have e1600 : CFloat.finite 800 * CFloat.finite 2 = .finite 1600 := by
    rw [finite_mul_finite, round_eq_intCast _ 1600 (by norm_num) (by norm_num)]; norm_num
  have e1200 : CFloat.finite 600 * CFloat.finite 2 = .finite 1200 := by
    rw [finite_mul_finite, round_eq_intCast _ 1200 (by norm_num) (by norm_num)]; norm_num
  have e20 : CFloat.finite 10 * CFloat.finite 2 = .finite 20 := by
    rw [finite_mul_finite, round_eq_intCast _ 20 (by norm_num) (by norm_num)]; norm_num
  have e40 : CFloat.finite 20 * CFloat.finite 2 = .finite 40 := by
    rw [finite_mul_finite, round_eq_intCast _ 40 (by norm_num) (by norm_num)]; norm_num
  have e220 : CFloat.finite 110 * CFloat.finite 2 = .finite 220 := by
    rw [finite_mul_finite, round_eq_intCast _ 220 (by norm_num) (by norm_num)]; norm_num
  have e140 : CFloat.finite 70 * CFloat.finite 2 = .finite 140 := by
    rw [finite_mul_finite, round_eq_intCast _ 140 (by norm_num) (by norm_num)]; norm_num
  have e1060 : CFloat.finite 1200 - CFloat.finite 140 = .finite 1060 := by
    rw [finite_sub_finite, round_eq_intCast _ 1060 (by norm_num) (by norm_num)]; norm_num
  have e200 : CFloat.finite 220 - CFloat.finite 20 = .finite 200 := by
    rw [finite_sub_finite, round_eq_intCast _ 200 (by norm_num) (by norm_num)]; norm_num
  have e100 : CFloat.finite 140 - CFloat.finite 40 = .finite 100 := by
    rw [finite_sub_finite, round_eq_intCast _ 100 (by norm_num) (by norm_num)]; norm_num
  refine ⟨?_, ?_, ?_⟩
  · rw [drawGUIList_orthoExtents]; rfl
  · simp only [exampleWorldHiDpi, exampleGui, e1600, e1200]
  · rw [drawGUIList_issued]
    simp only [scissorBoxes, guardOpenCalls, setupCalls, guardCloseCalls, listCalls, pointerCalls,
      ImDrawData.ScaleClipRects, exampleSingleDrawData, exampleList, exampleDrawCmd,
      exampleWorldHiDpi, exampleGui, commandCalls, startOffsets, startOffsetsFrom,
      e1200, e20, e40, e220, e140, e1060, e200, e100,
      List.length_cons, List.length_nil, List.range_succ, List.range_zero, List.nil_append,
      List.map_cons, List.map_nil, List.zipWith_cons_cons, List.zipWith_nil_right,
      List.flatten_cons, List.flatten_nil, List.append_nil, List.filterMap_append,
      List.filterMap_cons, List.filterMap_nil, List.flatMap_cons, List.flatMap_nil,
      List.cons_append]
    decide

end IrrIMGUI
